import Mathlib

/-!
Verification development for the SimpleJVM runtime (Go sources).

Shallow embedding conventions:
  * Go `int32` / `int64` values are modelled as `Int`, with explicit wrapping
    (`wrap32` / `wrap64`) where the source relies on fixed-width behaviour.
  * Go maps keyed by object id are modelled as association lists `List (Nat × _)`.
  * Go `any` heap references are modelled by the inductive `HVal` (heap shape)
    and `Ref` (interpreter reference slots).
  * Go runtime panics (index out of range, nil dereference, failed type
    assertion) are modelled by `Option`: `none` means the Go program crashes.
  * Go `error` returns are modelled by `Except String` / an error constructor.

The file is organised as: all definitions (the embedding), then all theorems.
-/

set_option maxHeartbeats 1600000

namespace SimpleJVM

/-! # Definitions -/

/-! ## Heap values (`src/unnamed/part_008`)

`HVal` is the shape of a value stored in `Heap.objects` or passed as a GC
root.  `obj fields numFieldSlots` mirrors `*runtime.Object` (its `Fields`
map of reference values and the size of its `FieldSlots` map); `arr` mirrors
`*runtime.Array` (`References` is `some` exactly when the Go slice is
non-nil, and the four counters are the lengths of the `Ints`/`Longs`/
`Floats`/`Doubles` storage slices); `frame refs` mirrors `*runtime.Frame`
(the `LocalVars.refs` slice); `other` covers the remaining Go types of the
`default` case. -/
inductive HVal where
  | null : HVal
  | str : String → HVal
  | obj : List HVal → Nat → HVal
  | arr : Option (List HVal) → Nat → Nat → Nat → Nat → HVal
  | frame : List HVal → HVal
  | other : HVal

/-- Embeds `estimateSize` from `src/unnamed/part_008` lines 190-221. -/
def estimateSize : HVal → Int
  | HVal.obj fields numFieldSlots =>
      64 + 16 * (fields.length : Int) + 8 * (numFieldSlots : Int)
  | HVal.arr refs nInts nLongs nFloats nDoubles =>
      32 + 4 * (nInts : Int) + 8 * (nLongs : Int) + 4 * (nFloats : Int)
        + 8 * (nDoubles : Int)
        + (match refs with
           | some rs => 8 * (rs.length : Int)
           | none => 0)
  | HVal.str s => 24 + (s.utf8ByteSize : Int)
  | _ => 16

/-! `Heap.mark` (`src/unnamed/part_008` lines 116-155).  The Go method
recurses through object fields, reference-array elements and frame local
references, threading the `marked` map; no case of the `switch` inserts an
id into `marked`.  `markValue v marked` returns the `marked` set after
visiting `v`; `markValueList` is the embedding of the `for` loops over the
reference slices. -/
mutual
def markValue : HVal → List Nat → List Nat
  | HVal.null, marked => marked
  | HVal.obj fields _, marked => markValueList fields marked
  | HVal.arr (some refs) _ _ _ _, marked => markValueList refs marked
  | HVal.arr none _ _ _ _, marked => marked
  | HVal.str _, marked => marked
  | HVal.frame refs, marked => markValueList refs marked
  | HVal.other, marked => marked

def markValueList : List HVal → List Nat → List Nat
  | [], marked => marked
  | v :: vs, marked => markValueList vs (markValue v marked)
end

/-- Embeds the `Heap` struct of `src/unnamed/part_008` (the mutexes and
atomic wrappers are concurrency plumbing; the payloads are kept). -/
structure Heap where
  objects : List (Nat × HVal)
  nextID : Nat
  allocCount : Nat
  freeCount : Nat
  totalBytes : Int
  gcRuns : Nat
  gcThreshold : Int
  gcEnabled : Bool

/-- Embeds `NewHeap` (`src/unnamed/part_008` lines 29-35). -/
def NewHeap : Heap :=
  { objects := []
    nextID := 0
    allocCount := 0
    freeCount := 0
    totalBytes := 0
    gcRuns := 0
    gcThreshold := 10 * 1024 * 1024
    gcEnabled := true }

/-- Embeds `Heap.GC` (`src/unnamed/part_008` lines 79-113): mark from the
roots, then sweep every entry whose id is not in `marked`, decrementing
`totalBytes` and incrementing `freeCount` per deleted entry. -/
def Heap.GC (h : Heap) (roots : List HVal) : Heap :=
  if h.gcEnabled = false then h
  else
    let marked := roots.foldl (fun m root => markValue root m) []
    let deleted := h.objects.filter (fun p => marked.contains p.1 = false)
    { h with
      gcRuns := h.gcRuns + 1
      objects := h.objects.filter (fun p => marked.contains p.1)
      totalBytes := h.totalBytes - deleted.foldl (fun acc p => acc + estimateSize p.2) 0
      freeCount := h.freeCount + deleted.length }

/-- Embeds `Heap.Alloc` (`src/unnamed/part_008` lines 38-56): take the next
id, record the object, add its estimated size, and if GC is enabled and the
total exceeds the threshold run `GC(nil)` before returning. -/
def Heap.Alloc (h : Heap) (obj : HVal) : Nat × Heap :=
  let id := h.nextID + 1
  let h1 : Heap :=
    { h with
      nextID := id
      allocCount := h.allocCount + 1
      objects := h.objects ++ [(id, obj)]
      totalBytes := h.totalBytes + estimateSize obj }
  if h1.gcEnabled = true ∧ h1.totalBytes > h1.gcThreshold then (id, h1.GC [])
  else (id, h1)

/-- Embeds `Heap.Get` (`src/unnamed/part_008` lines 59-63); a missing id
yields `none` (the Go map returns the nil `any`). -/
def Heap.Get (h : Heap) (id : Nat) : Option HVal :=
  (h.objects.find? (fun p => p.1 = id)).map Prod.snd

/-- A concrete heap object used to evaluate `Heap.GC` at a failing input for
the GC-correctness claim. -/
def gcDemoObj : HVal := HVal.obj [] 0

/-- The heap state `{1 ↦ gcDemoObj}` with GC enabled. -/
def gcDemoHeap : Heap :=
  { objects := [(1, gcDemoObj)]
    nextID := 1
    allocCount := 1
    freeCount := 0
    totalBytes := 64
    gcRuns := 0
    gcThreshold := 10485760
    gcEnabled := true }

/-- Heap at 10485760 estimated bytes: the next allocation crosses the 10 MiB
threshold. -/
def allocDemoHeap : Heap := { NewHeap with totalBytes := 10485760 }

/-! ## Event loop (`src/unnamed/part_005`)

Time (`time.Time` / `time.Duration`) is modelled as `Int` milliseconds.
Callbacks are opaque host effects; firing a timer or dispatching a task is
recorded by returning the fired `TimerTask`s (in firing order) and the
dispatched task.  The Go timer min-heap (`container/heap` ordered by
`Deadline.Before`) is modelled as a list together with `popMin`, which
extracts an element of minimal deadline exactly as `heap.Pop` does (ties are
broken by list position; the Go heap breaks ties arbitrarily). -/

/-- Embeds `TimerTask` (`src/unnamed/part_005` lines 311-318); `interval = 0`
for `setTimeout`-style one-shot timers. -/
structure TimerTask where
  id : Int
  name : String
  deadline : Int
  interval : Int
deriving DecidableEq

/-- Embeds `Task` (`src/unnamed/part_005` lines 304-308). -/
structure EvTask where
  id : Int
  name : String
deriving DecidableEq

/-- Extraction of a minimal-deadline timer, the model of `heap.Pop` on the
`TimerHeap`. -/
def popMin : List TimerTask → Option (TimerTask × List TimerTask)
  | [] => none
  | t :: ts =>
    match popMin ts with
    | none => some (t, ts)
    | some (m, rest) =>
      if t.deadline ≤ m.deadline then some (t, ts) else some (m, t :: rest)

/-- Number of timers whose deadline has passed; used as the loop fuel. -/
def readyCount (now : Int) (ts : List TimerTask) : Nat :=
  (ts.filter (fun t => decide (t.deadline ≤ now))).length

/-- Embeds the loop body of `EventLoop.fireReadyTimers` (`src/unnamed/part_005`
lines 482-510): while the heap's minimum deadline is not after `now`, pop and
fire it, and if it carries a positive interval push it back with deadline
`now + interval`.  `fired` accumulates the fired timers (reversed).  The fuel
bounds the iteration count; `fireReadyTimers` supplies `timers.length`, which
suffices because every iteration retires one passed-deadline timer and any
rescheduled timer has a future deadline. -/
def fireReadyTimersAux : Nat → Int → List TimerTask → List TimerTask →
    List TimerTask × List TimerTask
  | 0, _, timers, fired => (fired.reverse, timers)
  | fuel + 1, now, timers, fired =>
    match popMin timers with
    | none => (fired.reverse, timers)
    | some (t, rest) =>
      if now < t.deadline then (fired.reverse, timers)
      else
        fireReadyTimersAux fuel now
          (if 0 < t.interval then { t with deadline := now + t.interval } :: rest else rest)
          (t :: fired)

/-- Embeds `EventLoop.fireReadyTimers`: returns the timers fired during this
tick, in firing order, and the remaining timer heap. -/
def fireReadyTimers (now : Int) (timers : List TimerTask) :
    List TimerTask × List TimerTask :=
  fireReadyTimersAux timers.length now timers []

/-- Embeds the queue state of `EventLoop` (`src/unnamed/part_005` lines
321-329): the buffered task channel (FIFO list) and the timer heap. -/
structure EventLoop where
  tasks : List EvTask
  timers : List TimerTask
deriving DecidableEq

/-- Outcome of one iteration of `EventLoop.Run`: either the loop returns
(no ready work and both queues empty) or it performed a tick, firing the
listed timers and then dispatching at most one task. -/
inductive TickOutcome where
  | finished (el : EventLoop)
  | stepped (fired : List TimerTask) (ran : Option EvTask) (el : EventLoop)
deriving DecidableEq

/-- Embeds one iteration of the `EventLoop.Run` loop (`src/unnamed/part_005`
lines 407-444, stop channel aside): fire all ready timers, then pop exactly
one task if available; with no task available the loop returns when the
timer heap and the task queue are both empty, otherwise it sleeps and
re-checks (modelled as a `stepped` outcome that dispatches nothing). -/
def EventLoop.tick (el : EventLoop) (now : Int) : TickOutcome :=
  let fr := fireReadyTimers now el.timers
  match el.tasks with
  | task :: rest => TickOutcome.stepped fr.1 (some task) { tasks := rest, timers := fr.2 }
  | [] =>
    if 0 < fr.2.length then TickOutcome.stepped fr.1 none { tasks := [], timers := fr.2 }
    else TickOutcome.finished { tasks := [], timers := fr.2 }

/-- A periodic timer first due at deadline 0 with interval 10, used to
evaluate the rescheduling rule at a concrete input. -/
def periodicDemoTimer : TimerTask := { id := 1, name := "p", deadline := 0, interval := 10 }

/-! ## Fixed-width integer conversions

Go's fixed-width conversions on the `Int` model.  `wrap32`/`wrap64` are the
reinterpretations into signed 32/64-bit two's complement (`int32(x)` /
`int64(x)`); `toInt8`/`toInt16`/`toUint16` are the narrowing conversions
`int8(v)`, `int16(v)`, `uint16(v)` applied to an `int32` value. -/

/-- Reinterpretation of an integer as a signed 32-bit value (`int32(x)`). -/
def wrap32 (v : Int) : Int := (v + 2147483648) % 4294967296 - 2147483648

/-- Reinterpretation of an integer as a signed 64-bit value (`int64(x)`). -/
def wrap64 (v : Int) : Int :=
  (v + 9223372036854775808) % 18446744073709551616 - 9223372036854775808

/-- Go `int32(int8(v))`: the signed low 8 bits. -/
def toInt8 (v : Int) : Int := (v + 128) % 256 - 128

/-- Go `int32(int16(v))`: the signed low 16 bits. -/
def toInt16 (v : Int) : Int := (v + 32768) % 65536 - 32768

/-- Go `int32(uint16(v))`: the unsigned low 16 bits. -/
def toUint16 (v : Int) : Int := v % 65536

/-! ## Interpreter value fabric (`src/unnamed/part_004`)

A reference slot (`any` in Go) holds nil, a Go string (string constants,
class-name tokens, `"System.out"`, `"Object<...>"` placeholders), or a
`*runtime.Array` pointer.  Array pointers are modelled as indices into an
explicit array store (`List ArrayObj`), which makes the Go in-place mutation
of arrays explicit.  `*runtime.Object` and host-provided opaque references
are not needed by the embedded instruction subset. -/
inductive Ref where
  | null : Ref
  | str : String → Ref
  | arr : Nat → Ref
deriving DecidableEq

/-- Embeds `OperandStack` (`src/unnamed/part_004` lines 137-142): parallel
`slots`/`refs` backing arrays of fixed length and a fill pointer `size`. -/
structure OperandStack where
  size : Nat
  slots : List Int
  refs : List Ref
deriving DecidableEq

/-- Embeds `NewOperandStack` (`src/unnamed/part_004` lines 144-154): a
requested capacity below 1 is clamped to 1. -/
def NewOperandStack (maxSize : Int) : OperandStack :=
  let m := if maxSize < 1 then 1 else maxSize
  { size := 0
    slots := List.replicate m.toNat 0
    refs := List.replicate m.toNat Ref.null }

/-- Embeds `OperandStack.PushInt`: writes `refs[size] = nil`,
`slots[size] = int64(val)` and increments `size`; an out-of-range index is a
Go panic (`none`). -/
def OperandStack.PushInt (s : OperandStack) (val : Int) : Option OperandStack :=
  if s.size < s.refs.length ∧ s.size < s.slots.length then
    some { size := s.size + 1, slots := s.slots.set s.size val, refs := s.refs.set s.size Ref.null }
  else none

/-- Embeds `OperandStack.PopInt`: decrements `size`, clears the ref cell and
returns `int32(slots[size])`. -/
def OperandStack.PopInt (s : OperandStack) : Option (Int × OperandStack) :=
  if 0 < s.size ∧ s.size - 1 < s.refs.length ∧ s.size - 1 < s.slots.length then
    some (wrap32 (s.slots.getD (s.size - 1) 0),
      { size := s.size - 1, slots := s.slots, refs := s.refs.set (s.size - 1) Ref.null })
  else none

/-- Embeds `OperandStack.PushLong`. -/
def OperandStack.PushLong (s : OperandStack) (val : Int) : Option OperandStack :=
  if s.size < s.refs.length ∧ s.size < s.slots.length then
    some { size := s.size + 1, slots := s.slots.set s.size val, refs := s.refs.set s.size Ref.null }
  else none

/-- Embeds `OperandStack.PopLong`: returns the raw 64-bit slot. -/
def OperandStack.PopLong (s : OperandStack) : Option (Int × OperandStack) :=
  if 0 < s.size ∧ s.size - 1 < s.refs.length ∧ s.size - 1 < s.slots.length then
    some (s.slots.getD (s.size - 1) 0,
      { size := s.size - 1, slots := s.slots, refs := s.refs.set (s.size - 1) Ref.null })
  else none

/-- Embeds `OperandStack.PushFloat` with the `float32` value represented by
its raw bits (the Go code stores exactly those bits); note the source does
not clear the ref cell here. -/
def OperandStack.PushFloatBits (s : OperandStack) (bits : Int) : Option OperandStack :=
  if s.size < s.slots.length then
    some { s with size := s.size + 1, slots := s.slots.set s.size bits }
  else none

/-- Embeds `OperandStack.PopFloat` (raw-bits view); the source does not
clear the ref cell here. -/
def OperandStack.PopFloatBits (s : OperandStack) : Option (Int × OperandStack) :=
  if 0 < s.size ∧ s.size - 1 < s.slots.length then
    some (wrap32 (s.slots.getD (s.size - 1) 0), { s with size := s.size - 1 })
  else none

/-- Embeds `OperandStack.PushDouble` (raw-bits view, no ref clear). -/
def OperandStack.PushDoubleBits (s : OperandStack) (bits : Int) : Option OperandStack :=
  if s.size < s.slots.length then
    some { s with size := s.size + 1, slots := s.slots.set s.size bits }
  else none

/-- Embeds `OperandStack.PopDouble` (raw-bits view, no ref clear). -/
def OperandStack.PopDoubleBits (s : OperandStack) : Option (Int × OperandStack) :=
  if 0 < s.size ∧ s.size - 1 < s.slots.length then
    some (s.slots.getD (s.size - 1) 0, { s with size := s.size - 1 })
  else none

/-- Embeds `OperandStack.PushRef`: `slots[size] = 0`, `refs[size] = val`. -/
def OperandStack.PushRef (s : OperandStack) (val : Ref) : Option OperandStack :=
  if s.size < s.slots.length ∧ s.size < s.refs.length then
    some { size := s.size + 1, slots := s.slots.set s.size 0, refs := s.refs.set s.size val }
  else none

/-- Embeds `OperandStack.PopRef`: returns `refs[size-1]` and zeroes both
cells. -/
def OperandStack.PopRef (s : OperandStack) : Option (Ref × OperandStack) :=
  if 0 < s.size ∧ s.size - 1 < s.refs.length ∧ s.size - 1 < s.slots.length then
    some (s.refs.getD (s.size - 1) Ref.null,
      { size := s.size - 1
        slots := s.slots.set (s.size - 1) 0
        refs := s.refs.set (s.size - 1) Ref.null })
  else none

/-- Embeds `OperandStack.PushSlot` (raw slot push). -/
def OperandStack.PushSlot (s : OperandStack) (val : Int) : Option OperandStack :=
  if s.size < s.slots.length ∧ s.size < s.refs.length then
    some { size := s.size + 1, slots := s.slots.set s.size val, refs := s.refs.set s.size Ref.null }
  else none

/-- Embeds `OperandStack.PopSlot` (raw slot pop, ref cell cleared). -/
def OperandStack.PopSlot (s : OperandStack) : Option (Int × OperandStack) :=
  if 0 < s.size ∧ s.size - 1 < s.refs.length ∧ s.size - 1 < s.slots.length then
    some (s.slots.getD (s.size - 1) 0,
      { size := s.size - 1, slots := s.slots, refs := s.refs.set (s.size - 1) Ref.null })
  else none

/-- Embeds `OperandStack.Pop` (discard top). -/
def OperandStack.PopDiscard (s : OperandStack) : Option OperandStack :=
  if 0 < s.size ∧ s.size - 1 < s.refs.length then
    some { s with size := s.size - 1, refs := s.refs.set (s.size - 1) Ref.null }
  else none

/-- Embeds `OperandStack.Dup`: copies both the slot bits and the ref at the
top into the next cell. -/
def OperandStack.Dup (s : OperandStack) : Option OperandStack :=
  if 0 < s.size ∧ s.size - 1 < s.refs.length ∧ s.size - 1 < s.slots.length ∧
      s.size < s.slots.length ∧ s.size < s.refs.length then
    some { size := s.size + 1
           slots := s.slots.set s.size (s.slots.getD (s.size - 1) 0)
           refs := s.refs.set s.size (s.refs.getD (s.size - 1) Ref.null) }
  else none

/-- Embeds `OperandStack.Swap`: exchanges the top two slots and refs. -/
def OperandStack.Swap (s : OperandStack) : Option OperandStack :=
  if 2 ≤ s.size ∧ s.size - 1 < s.slots.length ∧ s.size - 1 < s.refs.length then
    some { s with
           slots := (s.slots.set (s.size - 1) (s.slots.getD (s.size - 2) 0)).set (s.size - 2)
             (s.slots.getD (s.size - 1) 0)
           refs := (s.refs.set (s.size - 1) (s.refs.getD (s.size - 2) Ref.null)).set (s.size - 2)
             (s.refs.getD (s.size - 1) Ref.null) }
  else none

/-- Embeds `OperandStack.Clear`: only the fill pointer is reset. -/
def OperandStack.Clear (s : OperandStack) : OperandStack := { s with size := 0 }

/-- Embeds `LocalVars` (`src/unnamed/part_004` lines 80-84). -/
structure LocalVars where
  slots : List Int
  refs : List Ref
deriving DecidableEq

/-- Embeds `NewLocalVars`. -/
def NewLocalVars (maxLocals : Nat) : LocalVars :=
  { slots := List.replicate maxLocals 0, refs := List.replicate maxLocals Ref.null }

/-- Embeds `LocalVars.SetInt`: stores the value and clears the ref cell. -/
def LocalVars.SetInt (l : LocalVars) (index : Nat) (val : Int) : Option LocalVars :=
  if index < l.slots.length ∧ index < l.refs.length then
    some { slots := l.slots.set index val, refs := l.refs.set index Ref.null }
  else none

/-- Embeds `LocalVars.GetInt` (`int32(slots[index])`). -/
def LocalVars.GetInt (l : LocalVars) (index : Nat) : Option Int :=
  if index < l.slots.length then some (wrap32 (l.slots.getD index 0)) else none

/-- Embeds `LocalVars.SetLong`. -/
def LocalVars.SetLong (l : LocalVars) (index : Nat) (val : Int) : Option LocalVars :=
  if index < l.slots.length ∧ index < l.refs.length then
    some { slots := l.slots.set index val, refs := l.refs.set index Ref.null }
  else none

/-- Embeds `LocalVars.GetLong`. -/
def LocalVars.GetLong (l : LocalVars) (index : Nat) : Option Int :=
  if index < l.slots.length then some (l.slots.getD index 0) else none

/-- Embeds `LocalVars.SetSlot` (raw slot, ref cell untouched). -/
def LocalVars.SetSlot (l : LocalVars) (index : Nat) (val : Int) : Option LocalVars :=
  if index < l.slots.length then some { l with slots := l.slots.set index val } else none

/-- Embeds `LocalVars.GetSlot`. -/
def LocalVars.GetSlot (l : LocalVars) (index : Nat) : Option Int :=
  if index < l.slots.length then some (l.slots.getD index 0) else none

/-- Embeds `LocalVars.SetRef`: stores the ref and zeroes the slot. -/
def LocalVars.SetRef (l : LocalVars) (index : Nat) (val : Ref) : Option LocalVars :=
  if index < l.refs.length ∧ index < l.slots.length then
    some { refs := l.refs.set index val, slots := l.slots.set index 0 }
  else none

/-- Embeds `LocalVars.GetRef`. -/
def LocalVars.GetRef (l : LocalVars) (index : Nat) : Option Ref :=
  if index < l.refs.length then some (l.refs.getD index Ref.null) else none

/-! ## Constant pool (`src/unnamed/part_003`) -/

/-- Embeds the `ConstantInfo` variants; `long`/`double` values are the raw
64-bit payloads (`ConstantDoubleInfo.Value` is `uint64` bits in the source),
`float` is the raw `uint32` bits. -/
inductive CPInfo where
  | utf8 : String → CPInfo
  | integer : Int → CPInfo
  | float : Nat → CPInfo
  | long : Int → CPInfo
  | double : Nat → CPInfo
  | classInfo : Nat → CPInfo
  | stringInfo : Nat → CPInfo
  | fieldref : Nat → Nat → CPInfo
  | methodref : Nat → Nat → CPInfo
  | interfaceMethodref : Nat → Nat → CPInfo
  | nameAndType : Nat → Nat → CPInfo
  | methodHandle : CPInfo
  | methodType : CPInfo
  | invokeDynamic : CPInfo
deriving DecidableEq

/-- Embeds `ConstantPool`: a slice of `ConstantInfo` interface values; slot 0
and the slot after a long/double entry hold `nil` (`none`).  Indexing past
the end is a Go panic, modelled by `List.get?`. -/
abbrev ConstantPool := List (Option CPInfo)

/-- Embeds `ConstantPool.GetUtf8`: a non-UTF-8 entry (a nil slot included)
yields `""`; an out-of-range index is a panic (`none`). -/
def ConstantPool.GetUtf8 (cp : ConstantPool) (index : Nat) : Option String :=
  match cp.get? index with
  | none => none
  | some (some (CPInfo.utf8 s)) => some s
  | some _ => some ""

/-- Embeds `ConstantPool.GetClassName`: resolves a Class entry to the UTF-8
of its name index, `""` for a mismatched tag. -/
def ConstantPool.GetClassName (cp : ConstantPool) (index : Nat) : Option String :=
  match cp.get? index with
  | none => none
  | some (some (CPInfo.classInfo nameIndex)) => cp.GetUtf8 nameIndex
  | some _ => some ""

/-! ## Code attribute and exception matching
(`src/unnamed/part_002`, `src/runtime/exception.go`) -/

/-- Embeds `ExceptionTableEntry` (four `u16` fields). -/
structure ExceptionTableEntry where
  startPC : Nat
  endPC : Nat
  handlerPC : Nat
  catchType : Nat
deriving DecidableEq

/-- Embeds `CodeAttribute` (the nested attribute list is irrelevant here). -/
structure CodeAttribute where
  maxStack : Nat
  maxLocals : Nat
  code : List Nat
  exceptionTable : List ExceptionTableEntry
deriving DecidableEq

/-- Embeds `isException` (`src/runtime/exception.go` lines 89-106). -/
def isException (className : String) : Bool :=
  [ "java/lang/Exception", "java/lang/RuntimeException",
    "java/lang/NullPointerException", "java/lang/ArrayIndexOutOfBoundsException",
    "java/lang/ArithmeticException", "java/lang/IllegalArgumentException",
    "java/lang/IllegalStateException", "java/lang/IndexOutOfBoundsException",
    "java/lang/ClassCastException", "java/lang/NumberFormatException",
    "java/io/IOException", "java/io/FileNotFoundException" ].contains className

/-- Embeds `isRuntimeException` (`src/runtime/exception.go` lines 109-122). -/
def isRuntimeException (className : String) : Bool :=
  [ "java/lang/RuntimeException",
    "java/lang/NullPointerException", "java/lang/ArrayIndexOutOfBoundsException",
    "java/lang/ArithmeticException", "java/lang/IllegalArgumentException",
    "java/lang/IllegalStateException", "java/lang/IndexOutOfBoundsException",
    "java/lang/ClassCastException", "java/lang/NumberFormatException" ].contains className

/-- Embeds `matchesException` (`src/runtime/exception.go` lines 63-86). -/
def matchesException (thrownClass catchClass : String) : Bool :=
  if thrownClass = catchClass then true
  else if catchClass = "java/lang/Exception" then isException thrownClass
  else if catchClass = "java/lang/Throwable" then true
  else if catchClass = "java/lang/RuntimeException" then isRuntimeException thrownClass
  else false

/-- The loop body of `FindExceptionHandler` (`src/runtime/exception.go`
lines 38-60) over the exception-table entries. -/
def FindExceptionHandlerAux (cp : ConstantPool) (pc : Int) (exceptionClass : String) :
    List ExceptionTableEntry → Option Int
  | [] => some (-1)
  | entry :: rest =>
    if (entry.startPC : Int) ≤ pc ∧ pc < (entry.endPC : Int) then
      if entry.catchType = 0 then some (entry.handlerPC : Int)
      else
        match cp.GetClassName entry.catchType with
        | none => none
        | some catchClassName =>
          if matchesException exceptionClass catchClassName then some (entry.handlerPC : Int)
          else FindExceptionHandlerAux cp pc exceptionClass rest
    else FindExceptionHandlerAux cp pc exceptionClass rest

/-- Embeds `FindExceptionHandler`: the handler pc of the first matching
entry, or `-1`. -/
def FindExceptionHandler (code : CodeAttribute) (cp : ConstantPool) (pc : Int)
    (exceptionClass : String) : Option Int :=
  FindExceptionHandlerAux cp pc exceptionClass code.exceptionTable

/-! ## Frames (`src/unnamed/part_004` lines 8-78)

A Go `Frame` carries `Method`/`Class`/`Thread` pointers; of those, the
embedded instructions use the method's parsed `Code` attribute (`NewFrame`
refuses methods without one, so every frame on a thread stack has one) and
the class's constant pool.  The `Code` byte slice equals `codeAttr.code`. -/
structure Frame where
  pc : Int
  codeAttr : CodeAttribute
  cp : ConstantPool
  locals : LocalVars
  stack : OperandStack
deriving DecidableEq

/-- Embeds `NewFrame` (`src/unnamed/part_004` lines 20-35) applied to the
parsed `Code` attribute: locals sized by `max_locals`, operand stack sized
by `max_stack`, `PC = 0`. -/
def NewFrameFromCode (code : CodeAttribute) (cp : ConstantPool) : Frame :=
  { pc := 0
    codeAttr := code
    cp := cp
    locals := NewLocalVars code.maxLocals
    stack := NewOperandStack (code.maxStack : Int) }

/-- Embeds `Frame.ReadU1`: read `Code[PC]` and advance; out of range (or a
negative `PC`) is a Go panic. -/
def Frame.ReadU1 (f : Frame) : Option (Nat × Frame) :=
  if 0 ≤ f.pc ∧ f.pc < (f.codeAttr.code.length : Int) then
    some (f.codeAttr.code.getD f.pc.toNat 0, { f with pc := f.pc + 1 })
  else none

/-- Embeds `Frame.ReadI1` (`int8(ReadU1())`). -/
def Frame.ReadI1 (f : Frame) : Option (Int × Frame) :=
  (f.ReadU1).map fun p => (toInt8 (p.1 : Int), p.2)

/-- Embeds `Frame.ReadU2` (`high<<8 | low`). -/
def Frame.ReadU2 (f : Frame) : Option (Nat × Frame) := do
  let (high, f1) ← f.ReadU1
  let (low, f2) ← f1.ReadU1
  some ((high <<< 8) ||| low, f2)

/-- Embeds `Frame.ReadI2` (`int16(ReadU2())`). -/
def Frame.ReadI2 (f : Frame) : Option (Int × Frame) :=
  (f.ReadU2).map fun p => (toInt16 (p.1 : Int), p.2)

/-- Embeds `Frame.ReadI4` (four bytes combined into an `int32`). -/
def Frame.ReadI4 (f : Frame) : Option (Int × Frame) := do
  let (b1, f1) ← f.ReadU1
  let (b2, f2) ← f1.ReadU1
  let (b3, f3) ← f2.ReadU1
  let (b4, f4) ← f3.ReadU1
  some (wrap32 (((b1 <<< 24) ||| (b2 <<< 16) ||| (b3 <<< 8) ||| b4 : Nat) : Int), f4)

/-! ## Monitors (`src/runtime/jvm.go` lines 33-147)

Threads are identified by their id.  `Monitor.Enter` completes immediately
when the monitor is free or already owned by the caller; when another thread
owns it the Go caller blocks on the condition variable, which under the
single-threaded interpreter never completes — modelled as `none`.  The wait
set and condition variable carry no further state relevant to the claims. -/
structure Monitor where
  owner : Option Nat
  entryCount : Int
deriving DecidableEq

/-- A fresh monitor as created by `JVM.GetOrCreateMonitor`. -/
def NewMonitor : Monitor := { owner := none, entryCount := 0 }

/-- Embeds `Monitor.Enter` (`src/runtime/jvm.go` lines 111-129). -/
def Monitor.Enter (m : Monitor) (thread : Nat) : Option Monitor :=
  if m.owner = none ∨ m.owner = some thread then
    some { owner := some thread, entryCount := m.entryCount + 1 }
  else none

/-- Embeds `Monitor.Exit` (`src/runtime/jvm.go` lines 132-147): a non-owner
gets `IllegalMonitorStateException`; otherwise decrement, and on zero clear
the owner (and signal one waiter). -/
def Monitor.Exit (m : Monitor) (thread : Nat) : Except String Monitor :=
  if m.owner = some thread then
    Except.ok { owner := if m.entryCount - 1 = 0 then none else m.owner
                entryCount := m.entryCount - 1 }
  else Except.error "IllegalMonitorStateException: not owner of monitor"

/-- A monitor operation as issued by `MONITORENTER` / `MONITOREXIT`
(`src/unnamed/part_020` lines 189-210). -/
inductive MonOp where
  | enter : Nat → MonOp
  | exit : Nat → MonOp
deriving DecidableEq

/-- One monitor operation.  A failed `Exit` leaves the monitor unchanged
(the interpreter reports the error); a blocked `Enter` never completes
(`none`). -/
def monStep (m : Monitor) : MonOp → Option Monitor
  | MonOp.enter t => m.Enter t
  | MonOp.exit t =>
    match m.Exit t with
    | Except.ok m2 => some m2
    | Except.error _ => some m

/-- A sequence of monitor operations. -/
def monRun (m : Monitor) : List MonOp → Option Monitor
  | [] => some m
  | op :: ops =>
    match monStep m op with
    | some m2 => monRun m2 ops
    | none => none

/-- The monitor invariant of the claim: non-negative entry count, and an
owner exactly when the count is positive. -/
def MonInv (m : Monitor) : Prop :=
  0 ≤ m.entryCount ∧ (m.owner.isSome ↔ 0 < m.entryCount)

/-! ## Arrays (`src/runtime/array.go`)

`*runtime.Array` is a mutable heap object; the interpreter state therefore
carries an explicit array store (`List ArrayObj`) and `Ref.arr i` points at
slot `i`.  A `none` storage slice is a nil Go slice (indexing it panics). -/
structure ArrayObj where
  type : Nat
  className : String
  length : Int
  ints : Option (List Int)
  longs : Option (List Int)
  floats : Option (List Int)
  doubles : Option (List Int)
  references : Option (List Ref)
deriving DecidableEq

/-- The `ArrayType` constants (`src/runtime/array.go` lines 8-17). -/
def ArrayTypeBoolean : Nat := 4
def ArrayTypeChar : Nat := 5
def ArrayTypeFloat : Nat := 6
def ArrayTypeDouble : Nat := 7
def ArrayTypeByte : Nat := 8
def ArrayTypeShort : Nat := 9
def ArrayTypeInt : Nat := 10
def ArrayTypeLong : Nat := 11

/-- Embeds `NewPrimitiveArray` (`src/runtime/array.go` lines 32-50). -/
def NewPrimitiveArray (atype : Nat) (length : Int) : ArrayObj :=
  { type := atype
    className := ""
    length := length
    ints := if atype = ArrayTypeBoolean ∨ atype = ArrayTypeByte ∨ atype = ArrayTypeChar ∨
        atype = ArrayTypeShort ∨ atype = ArrayTypeInt
      then some (List.replicate length.toNat 0) else none
    longs := if atype = ArrayTypeLong then some (List.replicate length.toNat 0) else none
    floats := if atype = ArrayTypeFloat then some (List.replicate length.toNat 0) else none
    doubles := if atype = ArrayTypeDouble then some (List.replicate length.toNat 0) else none
    references := none }

/-- Embeds `NewReferenceArray` (`src/runtime/array.go` lines 53-59). -/
def NewReferenceArray (className : String) (length : Int) : ArrayObj :=
  { type := 0
    className := className
    length := length
    ints := none
    longs := none
    floats := none
    doubles := none
    references := some (List.replicate length.toNat Ref.null) }

/-- Embeds `Array.GetInt` (`a.Ints[index]`); a nil slice or an out-of-range
index is a Go panic. -/
def ArrayObj.GetInt (a : ArrayObj) (index : Int) : Option Int :=
  match a.ints with
  | none => none
  | some l => if 0 ≤ index ∧ index < (l.length : Int) then some (l.getD index.toNat 0) else none

/-- Embeds `Array.SetInt`. -/
def ArrayObj.SetInt (a : ArrayObj) (index : Int) (val : Int) : Option ArrayObj :=
  match a.ints with
  | none => none
  | some l => if 0 ≤ index ∧ index < (l.length : Int) then
      some { a with ints := some (l.set index.toNat val) } else none

/-- Embeds `Array.GetLong`. -/
def ArrayObj.GetLong (a : ArrayObj) (index : Int) : Option Int :=
  match a.longs with
  | none => none
  | some l => if 0 ≤ index ∧ index < (l.length : Int) then some (l.getD index.toNat 0) else none

/-- Embeds `Array.SetLong`. -/
def ArrayObj.SetLong (a : ArrayObj) (index : Int) (val : Int) : Option ArrayObj :=
  match a.longs with
  | none => none
  | some l => if 0 ≤ index ∧ index < (l.length : Int) then
      some { a with longs := some (l.set index.toNat val) } else none

/-- Embeds `Array.GetFloat` (raw-bits view). -/
def ArrayObj.GetFloat (a : ArrayObj) (index : Int) : Option Int :=
  match a.floats with
  | none => none
  | some l => if 0 ≤ index ∧ index < (l.length : Int) then some (l.getD index.toNat 0) else none

/-- Embeds `Array.SetFloat` (raw-bits view). -/
def ArrayObj.SetFloat (a : ArrayObj) (index : Int) (val : Int) : Option ArrayObj :=
  match a.floats with
  | none => none
  | some l => if 0 ≤ index ∧ index < (l.length : Int) then
      some { a with floats := some (l.set index.toNat val) } else none

/-- Embeds `Array.GetDouble` (raw-bits view). -/
def ArrayObj.GetDouble (a : ArrayObj) (index : Int) : Option Int :=
  match a.doubles with
  | none => none
  | some l => if 0 ≤ index ∧ index < (l.length : Int) then some (l.getD index.toNat 0) else none

/-- Embeds `Array.SetDouble` (raw-bits view). -/
def ArrayObj.SetDouble (a : ArrayObj) (index : Int) (val : Int) : Option ArrayObj :=
  match a.doubles with
  | none => none
  | some l => if 0 ≤ index ∧ index < (l.length : Int) then
      some { a with doubles := some (l.set index.toNat val) } else none

/-- Embeds `Array.GetRef`. -/
def ArrayObj.GetRef (a : ArrayObj) (index : Int) : Option Ref :=
  match a.references with
  | none => none
  | some l => if 0 ≤ index ∧ index < (l.length : Int) then some (l.getD index.toNat Ref.null)
      else none

/-- Embeds `Array.SetRef`. -/
def ArrayObj.SetRef (a : ArrayObj) (index : Int) (val : Ref) : Option ArrayObj :=
  match a.references with
  | none => none
  | some l => if 0 ≤ index ∧ index < (l.length : Int) then
      some { a with references := some (l.set index.toNat val) } else none

/-- The array store: all arrays allocated so far; `Ref.arr i` is a pointer to
slot `i`. -/
abbrev ArrStore := List ArrayObj

/-! ## Exception propagation (`src/unnamed/part_019` lines 128-148) -/

/-- Embeds `Interpreter.handleException`: walk the thread's frame stack from
the top; in each frame look for a handler covering `PC - 1`; on a hit set
that frame's `PC` to the handler, clear its operand stack, push the
exception reference and resume (`Except.ok` with the surviving frames); on a
miss pop the frame; with the stack exhausted return the uncaught-exception
error.  (Every frame carries a parsed `Code` attribute — `NewFrame` refuses
methods without one — so the `code != nil` guard of the source is always
taken.)  The outer `Option` is the panic model of the stack primitives. -/
def handleException : List Frame → Ref → String → Option (Except String (List Frame))
  | [], _, exClassName => some (Except.error ("uncaught exception: " ++ exClassName))
  | f :: rest, exRef, exClassName =>
    match FindExceptionHandler f.codeAttr f.cp (f.pc - 1) exClassName with
    | none => none
    | some handlerPC =>
      if 0 ≤ handlerPC then
        match (f.stack.Clear).PushRef exRef with
        | none => none
        | some s2 => some (Except.ok ({ f with pc := handlerPC, stack := s2 } :: rest))
      else handleException rest exRef exClassName

/-! ## Opcodes and category dispatch (`src/interpreter/opcodes.go`) -/

@[simp] def NOP : Nat := 0x00
@[simp] def ACONST_NULL : Nat := 0x01
@[simp] def ICONST_M1 : Nat := 0x02
@[simp] def ICONST_0 : Nat := 0x03
@[simp] def ICONST_1 : Nat := 0x04
@[simp] def ICONST_2 : Nat := 0x05
@[simp] def ICONST_3 : Nat := 0x06
@[simp] def ICONST_4 : Nat := 0x07
@[simp] def ICONST_5 : Nat := 0x08
@[simp] def LCONST_0 : Nat := 0x09
@[simp] def LCONST_1 : Nat := 0x0A
@[simp] def BIPUSH : Nat := 0x10
@[simp] def SIPUSH : Nat := 0x11
@[simp] def LDC : Nat := 0x12
@[simp] def LDC_W : Nat := 0x13
@[simp] def LDC2_W : Nat := 0x14
@[simp] def ILOAD : Nat := 0x15
@[simp] def LLOAD : Nat := 0x16
@[simp] def ALOAD : Nat := 0x19
@[simp] def ILOAD_0 : Nat := 0x1A
@[simp] def ILOAD_1 : Nat := 0x1B
@[simp] def ILOAD_2 : Nat := 0x1C
@[simp] def ILOAD_3 : Nat := 0x1D
@[simp] def LLOAD_0 : Nat := 0x1E
@[simp] def LLOAD_1 : Nat := 0x1F
@[simp] def LLOAD_2 : Nat := 0x20
@[simp] def LLOAD_3 : Nat := 0x21
@[simp] def ALOAD_0 : Nat := 0x2A
@[simp] def ALOAD_1 : Nat := 0x2B
@[simp] def ALOAD_2 : Nat := 0x2C
@[simp] def ALOAD_3 : Nat := 0x2D
@[simp] def IALOAD : Nat := 0x2E
@[simp] def LALOAD : Nat := 0x2F
@[simp] def FALOAD : Nat := 0x30
@[simp] def DALOAD : Nat := 0x31
@[simp] def AALOAD : Nat := 0x32
@[simp] def BALOAD : Nat := 0x33
@[simp] def CALOAD : Nat := 0x34
@[simp] def SALOAD : Nat := 0x35
@[simp] def ISTORE : Nat := 0x36
@[simp] def LSTORE : Nat := 0x37
@[simp] def ASTORE : Nat := 0x3A
@[simp] def ISTORE_0 : Nat := 0x3B
@[simp] def ISTORE_1 : Nat := 0x3C
@[simp] def ISTORE_2 : Nat := 0x3D
@[simp] def ISTORE_3 : Nat := 0x3E
@[simp] def LSTORE_0 : Nat := 0x3F
@[simp] def LSTORE_1 : Nat := 0x40
@[simp] def LSTORE_2 : Nat := 0x41
@[simp] def LSTORE_3 : Nat := 0x42
@[simp] def ASTORE_0 : Nat := 0x4B
@[simp] def ASTORE_1 : Nat := 0x4C
@[simp] def ASTORE_2 : Nat := 0x4D
@[simp] def ASTORE_3 : Nat := 0x4E
@[simp] def IASTORE : Nat := 0x4F
@[simp] def LASTORE : Nat := 0x50
@[simp] def FASTORE : Nat := 0x51
@[simp] def DASTORE : Nat := 0x52
@[simp] def AASTORE : Nat := 0x53
@[simp] def BASTORE : Nat := 0x54
@[simp] def CASTORE : Nat := 0x55
@[simp] def SASTORE : Nat := 0x56
@[simp] def POP : Nat := 0x57
@[simp] def POP2 : Nat := 0x58
@[simp] def DUP : Nat := 0x59
@[simp] def DUP_X1 : Nat := 0x5A
@[simp] def DUP_X2 : Nat := 0x5B
@[simp] def DUP2 : Nat := 0x5C
@[simp] def SWAP : Nat := 0x5F
@[simp] def IADD : Nat := 0x60
@[simp] def LADD : Nat := 0x61
@[simp] def ISUB : Nat := 0x64
@[simp] def LSUB : Nat := 0x65
@[simp] def IMUL : Nat := 0x68
@[simp] def LMUL : Nat := 0x69
@[simp] def IDIV : Nat := 0x6C
@[simp] def LDIV : Nat := 0x6D
@[simp] def IREM : Nat := 0x70
@[simp] def LREM : Nat := 0x71
@[simp] def INEG : Nat := 0x74
@[simp] def LNEG : Nat := 0x75
@[simp] def ISHL : Nat := 0x78
@[simp] def LSHL : Nat := 0x79
@[simp] def ISHR : Nat := 0x7A
@[simp] def LSHR : Nat := 0x7B
@[simp] def IUSHR : Nat := 0x7C
@[simp] def LUSHR : Nat := 0x7D
@[simp] def IAND : Nat := 0x7E
@[simp] def LAND : Nat := 0x7F
@[simp] def IOR : Nat := 0x80
@[simp] def LOR : Nat := 0x81
@[simp] def IXOR : Nat := 0x82
@[simp] def LXOR : Nat := 0x83
@[simp] def IINC : Nat := 0x84
@[simp] def I2L : Nat := 0x85
@[simp] def I2F : Nat := 0x86
@[simp] def I2D : Nat := 0x87
@[simp] def L2I : Nat := 0x88
@[simp] def LCMP : Nat := 0x94
@[simp] def IFEQ : Nat := 0x99
@[simp] def IFNE : Nat := 0x9A
@[simp] def IFLT : Nat := 0x9B
@[simp] def IFGE : Nat := 0x9C
@[simp] def IFGT : Nat := 0x9D
@[simp] def IFLE : Nat := 0x9E
@[simp] def IF_ICMPEQ : Nat := 0x9F
@[simp] def IF_ICMPNE : Nat := 0xA0
@[simp] def IF_ICMPLT : Nat := 0xA1
@[simp] def IF_ICMPGE : Nat := 0xA2
@[simp] def IF_ICMPGT : Nat := 0xA3
@[simp] def IF_ICMPLE : Nat := 0xA4
@[simp] def IF_ACMPEQ : Nat := 0xA5
@[simp] def IF_ACMPNE : Nat := 0xA6
@[simp] def GOTO : Nat := 0xA7
@[simp] def JSR : Nat := 0xA8
@[simp] def RET : Nat := 0xA9
@[simp] def TABLESWITCH : Nat := 0xAA
@[simp] def LOOKUPSWITCH : Nat := 0xAB
@[simp] def IRETURN : Nat := 0xAC
@[simp] def LRETURN : Nat := 0xAD
@[simp] def FRETURN : Nat := 0xAE
@[simp] def DRETURN : Nat := 0xAF
@[simp] def ARETURN : Nat := 0xB0
@[simp] def RETURN : Nat := 0xB1
@[simp] def GETSTATIC : Nat := 0xB2
@[simp] def PUTSTATIC : Nat := 0xB3
@[simp] def GETFIELD : Nat := 0xB4
@[simp] def PUTFIELD : Nat := 0xB5
@[simp] def INVOKEVIRTUAL : Nat := 0xB6
@[simp] def INVOKESPECIAL : Nat := 0xB7
@[simp] def INVOKESTATIC : Nat := 0xB8
@[simp] def INVOKEINTERFACE : Nat := 0xB9
@[simp] def INVOKEDYNAMIC : Nat := 0xBA
@[simp] def NEW : Nat := 0xBB
@[simp] def NEWARRAY : Nat := 0xBC
@[simp] def ANEWARRAY : Nat := 0xBD
@[simp] def ARRAYLENGTH : Nat := 0xBE
@[simp] def ATHROW : Nat := 0xBF
@[simp] def CHECKCAST : Nat := 0xC0
@[simp] def INSTANCEOF : Nat := 0xC1
@[simp] def MONITORENTER : Nat := 0xC2
@[simp] def MONITOREXIT : Nat := 0xC3
@[simp] def IFNULL : Nat := 0xC6
@[simp] def IFNONNULL : Nat := 0xC7
@[simp] def GOTO_W : Nat := 0xC8

/-- The opcode categories of `src/interpreter/opcodes.go`. -/
inductive OpcodeCategory where
  | unknown : OpcodeCategory
  | const : OpcodeCategory
  | load : OpcodeCategory
  | store : OpcodeCategory
  | math : OpcodeCategory
  | control : OpcodeCategory
  | array : OpcodeCategory
  | objectOp : OpcodeCategory
  | invoke : OpcodeCategory
deriving DecidableEq

/-- Embeds the `opcodeCategories` table built by `init()` in
`src/interpreter/opcodes.go` and queried by `Category`. -/
def Category (opcode : Nat) : OpcodeCategory :=
  if [NOP, ACONST_NULL, ICONST_M1, ICONST_0, ICONST_1, ICONST_2,
      ICONST_3, ICONST_4, ICONST_5, LCONST_0, LCONST_1, BIPUSH, SIPUSH,
      LDC, LDC_W, LDC2_W].contains opcode then OpcodeCategory.const
  else if [ILOAD, LLOAD, ALOAD, ILOAD_0, ILOAD_1, ILOAD_2, ILOAD_3,
      LLOAD_0, LLOAD_1, LLOAD_2, LLOAD_3, ALOAD_0, ALOAD_1, ALOAD_2,
      ALOAD_3].contains opcode then OpcodeCategory.load
  else if [ISTORE, LSTORE, ASTORE, ISTORE_0, ISTORE_1, ISTORE_2, ISTORE_3,
      LSTORE_0, LSTORE_1, LSTORE_2, LSTORE_3, ASTORE_0, ASTORE_1, ASTORE_2,
      ASTORE_3].contains opcode then OpcodeCategory.store
  else if [POP, POP2, DUP, DUP_X1, DUP_X2, DUP2, SWAP,
      IADD, LADD, ISUB, LSUB, IMUL, LMUL, IDIV, LDIV, IREM, LREM, INEG, LNEG,
      ISHL, LSHL, ISHR, LSHR, IUSHR, LUSHR, IAND, LAND, IOR, LOR, IXOR, LXOR,
      IINC, I2L, I2F, I2D, L2I, LCMP].contains opcode then OpcodeCategory.math
  else if [IFEQ, IFNE, IFLT, IFGE, IFGT, IFLE,
      IF_ICMPEQ, IF_ICMPNE, IF_ICMPLT, IF_ICMPGE, IF_ICMPGT, IF_ICMPLE,
      IF_ACMPEQ, IF_ACMPNE, GOTO, JSR, RET, TABLESWITCH, LOOKUPSWITCH,
      IRETURN, LRETURN, FRETURN, DRETURN, ARETURN, RETURN, IFNULL, IFNONNULL,
      GOTO_W].contains opcode then OpcodeCategory.control
  else if [IALOAD, LALOAD, FALOAD, DALOAD, AALOAD, BALOAD, CALOAD, SALOAD,
      IASTORE, LASTORE, FASTORE, DASTORE, AASTORE, BASTORE, CASTORE, SASTORE,
      NEWARRAY, ANEWARRAY, ARRAYLENGTH].contains opcode then OpcodeCategory.array
  else if [GETSTATIC, PUTSTATIC, GETFIELD, PUTFIELD, NEW,
      ATHROW, CHECKCAST, INSTANCEOF, MONITORENTER, MONITOREXIT].contains opcode
    then OpcodeCategory.objectOp
  else if [INVOKEVIRTUAL, INVOKESPECIAL, INVOKESTATIC, INVOKEINTERFACE,
      INVOKEDYNAMIC].contains opcode then OpcodeCategory.invoke
  else OpcodeCategory.unknown

/-- The `(bool, error)` pair returned by the per-category handlers:
`ok a handled` is `(handled, nil)` with the mutated state, `raise msg` is
`(true, error)`. -/
inductive InstrOut (α : Type) where
  | ok : α → Bool → InstrOut α
  | raise : String → InstrOut α

/-- The Go type assertion `arrRef.(*runtime.Array)`: anything but an array
pointer panics. -/
def Ref.asArray : Ref → Option Nat
  | Ref.arr i => some i
  | _ => none

/-! ## Array instructions (`src/unnamed/part_017`) -/

/-- Embeds `executeArrayInstruction`: every array load/store checks the
popped reference against nil (raising `NullPointerException`) and the index
against `[0, Length)` (raising `ArrayIndexOutOfBoundsException`); `bastore`
stores `int32(int8(val))`, `castore` stores `int32(uint16(val))`, `sastore`
stores `int32(int16(val))`.  Errors are returned to the dispatcher as Go
errors (`InstrOut.raise`); float/double values travel as their raw bits. -/
def executeArrayInstruction (st : ArrStore) (f : Frame) (opcode : Nat) :
    Option (InstrOut (ArrStore × Frame)) := do
  if opcode = IALOAD then
    let (index, s1) ← f.stack.PopInt
    let (arrRef, s2) ← s1.PopRef
    if arrRef = Ref.null then return InstrOut.raise "NullPointerException: array is null"
    let ai ← arrRef.asArray
    let arr ← st.get? ai
    if index < 0 ∨ index ≥ arr.length then
      return InstrOut.raise ("ArrayIndexOutOfBoundsException: " ++ toString index)
    let v ← arr.GetInt index
    let s3 ← s2.PushInt v
    return InstrOut.ok (st, { f with stack := s3 }) true
  else if opcode = LALOAD then
    let (index, s1) ← f.stack.PopInt
    let (arrRef, s2) ← s1.PopRef
    if arrRef = Ref.null then return InstrOut.raise "NullPointerException: array is null"
    let ai ← arrRef.asArray
    let arr ← st.get? ai
    if index < 0 ∨ index ≥ arr.length then
      return InstrOut.raise ("ArrayIndexOutOfBoundsException: " ++ toString index)
    let v ← arr.GetLong index
    let s3 ← s2.PushLong v
    return InstrOut.ok (st, { f with stack := s3 }) true
  else if opcode = AALOAD then
    let (index, s1) ← f.stack.PopInt
    let (arrRef, s2) ← s1.PopRef
    if arrRef = Ref.null then return InstrOut.raise "NullPointerException: array is null"
    let ai ← arrRef.asArray
    let arr ← st.get? ai
    if index < 0 ∨ index ≥ arr.length then
      return InstrOut.raise ("ArrayIndexOutOfBoundsException: " ++ toString index)
    let v ← arr.GetRef index
    let s3 ← s2.PushRef v
    return InstrOut.ok (st, { f with stack := s3 }) true
  else if opcode = BALOAD then
    let (index, s1) ← f.stack.PopInt
    let (arrRef, s2) ← s1.PopRef
    if arrRef = Ref.null then return InstrOut.raise "NullPointerException: array is null"
    let ai ← arrRef.asArray
    let arr ← st.get? ai
    if index < 0 ∨ index ≥ arr.length then
      return InstrOut.raise ("ArrayIndexOutOfBoundsException: " ++ toString index)
    let v ← arr.GetInt index
    let s3 ← s2.PushInt v
    return InstrOut.ok (st, { f with stack := s3 }) true
  else if opcode = CALOAD then
    let (index, s1) ← f.stack.PopInt
    let (arrRef, s2) ← s1.PopRef
    if arrRef = Ref.null then return InstrOut.raise "NullPointerException: array is null"
    let ai ← arrRef.asArray
    let arr ← st.get? ai
    if index < 0 ∨ index ≥ arr.length then
      return InstrOut.raise ("ArrayIndexOutOfBoundsException: " ++ toString index)
    let v ← arr.GetInt index
    let s3 ← s2.PushInt v
    return InstrOut.ok (st, { f with stack := s3 }) true
  else if opcode = SALOAD then
    let (index, s1) ← f.stack.PopInt
    let (arrRef, s2) ← s1.PopRef
    if arrRef = Ref.null then return InstrOut.raise "NullPointerException: array is null"
    let ai ← arrRef.asArray
    let arr ← st.get? ai
    if index < 0 ∨ index ≥ arr.length then
      return InstrOut.raise ("ArrayIndexOutOfBoundsException: " ++ toString index)
    let v ← arr.GetInt index
    let s3 ← s2.PushInt v
    return InstrOut.ok (st, { f with stack := s3 }) true
  else if opcode = FALOAD then
    let (index, s1) ← f.stack.PopInt
    let (arrRef, s2) ← s1.PopRef
    if arrRef = Ref.null then return InstrOut.raise "NullPointerException: array is null"
    let ai ← arrRef.asArray
    let arr ← st.get? ai
    if index < 0 ∨ index ≥ arr.length then
      return InstrOut.raise ("ArrayIndexOutOfBoundsException: " ++ toString index)
    let v ← arr.GetFloat index
    let s3 ← s2.PushFloatBits v
    return InstrOut.ok (st, { f with stack := s3 }) true
  else if opcode = DALOAD then
    let (index, s1) ← f.stack.PopInt
    let (arrRef, s2) ← s1.PopRef
    if arrRef = Ref.null then return InstrOut.raise "NullPointerException: array is null"
    let ai ← arrRef.asArray
    let arr ← st.get? ai
    if index < 0 ∨ index ≥ arr.length then
      return InstrOut.raise ("ArrayIndexOutOfBoundsException: " ++ toString index)
    let v ← arr.GetDouble index
    let s3 ← s2.PushDoubleBits v
    return InstrOut.ok (st, { f with stack := s3 }) true
  else if opcode = IASTORE then
    let (val, s1) ← f.stack.PopInt
    let (index, s2) ← s1.PopInt
    let (arrRef, s3) ← s2.PopRef
    if arrRef = Ref.null then return InstrOut.raise "NullPointerException: array is null"
    let ai ← arrRef.asArray
    let arr ← st.get? ai
    if index < 0 ∨ index ≥ arr.length then
      return InstrOut.raise ("ArrayIndexOutOfBoundsException: " ++ toString index)
    let arr2 ← arr.SetInt index val
    return InstrOut.ok (st.set ai arr2, { f with stack := s3 }) true
  else if opcode = LASTORE then
    let (val, s1) ← f.stack.PopLong
    let (index, s2) ← s1.PopInt
    let (arrRef, s3) ← s2.PopRef
    if arrRef = Ref.null then return InstrOut.raise "NullPointerException: array is null"
    let ai ← arrRef.asArray
    let arr ← st.get? ai
    if index < 0 ∨ index ≥ arr.length then
      return InstrOut.raise ("ArrayIndexOutOfBoundsException: " ++ toString index)
    let arr2 ← arr.SetLong index val
    return InstrOut.ok (st.set ai arr2, { f with stack := s3 }) true
  else if opcode = AASTORE then
    let (val, s1) ← f.stack.PopRef
    let (index, s2) ← s1.PopInt
    let (arrRef, s3) ← s2.PopRef
    if arrRef = Ref.null then return InstrOut.raise "NullPointerException: array is null"
    let ai ← arrRef.asArray
    let arr ← st.get? ai
    if index < 0 ∨ index ≥ arr.length then
      return InstrOut.raise ("ArrayIndexOutOfBoundsException: " ++ toString index)
    let arr2 ← arr.SetRef index val
    return InstrOut.ok (st.set ai arr2, { f with stack := s3 }) true
  else if opcode = BASTORE then
    let (val, s1) ← f.stack.PopInt
    let (index, s2) ← s1.PopInt
    let (arrRef, s3) ← s2.PopRef
    if arrRef = Ref.null then return InstrOut.raise "NullPointerException: array is null"
    let ai ← arrRef.asArray
    let arr ← st.get? ai
    if index < 0 ∨ index ≥ arr.length then
      return InstrOut.raise ("ArrayIndexOutOfBoundsException: " ++ toString index)
    let arr2 ← arr.SetInt index (toInt8 val)
    return InstrOut.ok (st.set ai arr2, { f with stack := s3 }) true
  else if opcode = CASTORE then
    let (val, s1) ← f.stack.PopInt
    let (index, s2) ← s1.PopInt
    let (arrRef, s3) ← s2.PopRef
    if arrRef = Ref.null then return InstrOut.raise "NullPointerException: array is null"
    let ai ← arrRef.asArray
    let arr ← st.get? ai
    if index < 0 ∨ index ≥ arr.length then
      return InstrOut.raise ("ArrayIndexOutOfBoundsException: " ++ toString index)
    let arr2 ← arr.SetInt index (toUint16 val)
    return InstrOut.ok (st.set ai arr2, { f with stack := s3 }) true
  else if opcode = SASTORE then
    let (val, s1) ← f.stack.PopInt
    let (index, s2) ← s1.PopInt
    let (arrRef, s3) ← s2.PopRef
    if arrRef = Ref.null then return InstrOut.raise "NullPointerException: array is null"
    let ai ← arrRef.asArray
    let arr ← st.get? ai
    if index < 0 ∨ index ≥ arr.length then
      return InstrOut.raise ("ArrayIndexOutOfBoundsException: " ++ toString index)
    let arr2 ← arr.SetInt index (toInt16 val)
    return InstrOut.ok (st.set ai arr2, { f with stack := s3 }) true
  else if opcode = FASTORE then
    let (val, s1) ← f.stack.PopFloatBits
    let (index, s2) ← s1.PopInt
    let (arrRef, s3) ← s2.PopRef
    if arrRef = Ref.null then return InstrOut.raise "NullPointerException: array is null"
    let ai ← arrRef.asArray
    let arr ← st.get? ai
    if index < 0 ∨ index ≥ arr.length then
      return InstrOut.raise ("ArrayIndexOutOfBoundsException: " ++ toString index)
    let arr2 ← arr.SetFloat index val
    return InstrOut.ok (st.set ai arr2, { f with stack := s3 }) true
  else if opcode = DASTORE then
    let (val, s1) ← f.stack.PopDoubleBits
    let (index, s2) ← s1.PopInt
    let (arrRef, s3) ← s2.PopRef
    if arrRef = Ref.null then return InstrOut.raise "NullPointerException: array is null"
    let ai ← arrRef.asArray
    let arr ← st.get? ai
    if index < 0 ∨ index ≥ arr.length then
      return InstrOut.raise ("ArrayIndexOutOfBoundsException: " ++ toString index)
    let arr2 ← arr.SetDouble index val
    return InstrOut.ok (st.set ai arr2, { f with stack := s3 }) true
  else if opcode = NEWARRAY then
    let (atype, f1) ← f.ReadU1
    let (count, s1) ← f1.stack.PopInt
    if count < 0 then
      return InstrOut.raise ("NegativeArraySizeException: " ++ toString count)
    let arr := NewPrimitiveArray atype count
    let s2 ← s1.PushRef (Ref.arr st.length)
    return InstrOut.ok (st ++ [arr], { f1 with stack := s2 }) true
  else if opcode = ANEWARRAY then
    let (index, f1) ← f.ReadU2
    let className ← f.cp.GetClassName index
    let (count, s1) ← f1.stack.PopInt
    if count < 0 then
      return InstrOut.raise ("NegativeArraySizeException: " ++ toString count)
    let arr := NewReferenceArray className count
    let s2 ← s1.PushRef (Ref.arr st.length)
    return InstrOut.ok (st ++ [arr], { f1 with stack := s2 }) true
  else if opcode = ARRAYLENGTH then
    let (arrRef, s1) ← f.stack.PopRef
    if arrRef = Ref.null then return InstrOut.raise "NullPointerException: array is null"
    let ai ← arrRef.asArray
    let arr ← st.get? ai
    let s2 ← s1.PushInt arr.length
    return InstrOut.ok (st, { f with stack := s2 }) true
  else
    return InstrOut.ok (st, f) false

/-! ## Math instructions (`src/unnamed/part_021` lines 5-162)

The handler acts on the interpreter's current (top) frame; on division or
remainder by zero it enters exception propagation on the thread's frame
stack, so it is given the whole stack (head = current frame), exactly the
state `i.thread` holds when the dispatch loop calls it. -/
def executeMathInstruction (frames : List Frame) (opcode : Nat) :
    Option (InstrOut (List Frame)) := do
  match frames with
  | [] => none
  | f :: rest =>
    if opcode = POP then
      let s1 ← f.stack.PopDiscard
      return InstrOut.ok ({ f with stack := s1 } :: rest) true
    else if opcode = POP2 then
      let s1 ← f.stack.PopDiscard
      let s2 ← s1.PopDiscard
      return InstrOut.ok ({ f with stack := s2 } :: rest) true
    else if opcode = DUP then
      let s1 ← f.stack.Dup
      return InstrOut.ok ({ f with stack := s1 } :: rest) true
    else if opcode = SWAP then
      let s1 ← f.stack.Swap
      return InstrOut.ok ({ f with stack := s1 } :: rest) true
    else if opcode = IADD then
      let (v2, s1) ← f.stack.PopInt
      let (v1, s2) ← s1.PopInt
      let s3 ← s2.PushInt (wrap32 (v1 + v2))
      return InstrOut.ok ({ f with stack := s3 } :: rest) true
    else if opcode = ISUB then
      let (v2, s1) ← f.stack.PopInt
      let (v1, s2) ← s1.PopInt
      let s3 ← s2.PushInt (wrap32 (v1 - v2))
      return InstrOut.ok ({ f with stack := s3 } :: rest) true
    else if opcode = IMUL then
      let (v2, s1) ← f.stack.PopInt
      let (v1, s2) ← s1.PopInt
      let s3 ← s2.PushInt (wrap32 (v1 * v2))
      return InstrOut.ok ({ f with stack := s3 } :: rest) true
    else if opcode = IDIV then
      let (v2, s1) ← f.stack.PopInt
      let (v1, s2) ← s1.PopInt
      if v2 = 0 then
        match handleException ({ f with stack := s2 } :: rest)
            (Ref.str "java/lang/ArithmeticException") "java/lang/ArithmeticException" with
        | none => none
        | some (Except.error e) => return InstrOut.raise e
        | some (Except.ok frames2) => return InstrOut.ok frames2 true
      else
        let s3 ← s2.PushInt (wrap32 (Int.tdiv v1 v2))
        return InstrOut.ok ({ f with stack := s3 } :: rest) true
    else if opcode = IREM then
      let (v2, s1) ← f.stack.PopInt
      let (v1, s2) ← s1.PopInt
      if v2 = 0 then
        match handleException ({ f with stack := s2 } :: rest)
            (Ref.str "java/lang/ArithmeticException") "java/lang/ArithmeticException" with
        | none => none
        | some (Except.error e) => return InstrOut.raise e
        | some (Except.ok frames2) => return InstrOut.ok frames2 true
      else
        let s3 ← s2.PushInt (Int.tmod v1 v2)
        return InstrOut.ok ({ f with stack := s3 } :: rest) true
    else if opcode = INEG then
      let (v, s1) ← f.stack.PopInt
      let s2 ← s1.PushInt (wrap32 (-v))
      return InstrOut.ok ({ f with stack := s2 } :: rest) true
    else if opcode = LADD then
      let (v2, s1) ← f.stack.PopLong
      let (v1, s2) ← s1.PopLong
      let s3 ← s2.PushLong (wrap64 (v1 + v2))
      return InstrOut.ok ({ f with stack := s3 } :: rest) true
    else if opcode = LSUB then
      let (v2, s1) ← f.stack.PopLong
      let (v1, s2) ← s1.PopLong
      let s3 ← s2.PushLong (wrap64 (v1 - v2))
      return InstrOut.ok ({ f with stack := s3 } :: rest) true
    else if opcode = LMUL then
      let (v2, s1) ← f.stack.PopLong
      let (v1, s2) ← s1.PopLong
      let s3 ← s2.PushLong (wrap64 (v1 * v2))
      return InstrOut.ok ({ f with stack := s3 } :: rest) true
    else if opcode = LDIV then
      let (v2, s1) ← f.stack.PopLong
      let (v1, s2) ← s1.PopLong
      if v2 = 0 then
        match handleException ({ f with stack := s2 } :: rest)
            (Ref.str "java/lang/ArithmeticException") "java/lang/ArithmeticException" with
        | none => none
        | some (Except.error e) => return InstrOut.raise e
        | some (Except.ok frames2) => return InstrOut.ok frames2 true
      else
        let s3 ← s2.PushLong (wrap64 (Int.tdiv v1 v2))
        return InstrOut.ok ({ f with stack := s3 } :: rest) true
    else if opcode = LREM then
      let (v2, s1) ← f.stack.PopLong
      let (v1, s2) ← s1.PopLong
      if v2 = 0 then
        match handleException ({ f with stack := s2 } :: rest)
            (Ref.str "java/lang/ArithmeticException") "java/lang/ArithmeticException" with
        | none => none
        | some (Except.error e) => return InstrOut.raise e
        | some (Except.ok frames2) => return InstrOut.ok frames2 true
      else
        let s3 ← s2.PushLong (Int.tmod v1 v2)
        return InstrOut.ok ({ f with stack := s3 } :: rest) true
    else if opcode = LNEG then
      let (v, s1) ← f.stack.PopLong
      let s2 ← s1.PushLong (wrap64 (-v))
      return InstrOut.ok ({ f with stack := s2 } :: rest) true
    else if opcode = IAND then
      let (v2, s1) ← f.stack.PopInt
      let (v1, s2) ← s1.PopInt
      let s3 ← s2.PushInt (wrap32 (Int.ofNat (Nat.land (v1 % 4294967296).toNat
        (v2 % 4294967296).toNat)))
      return InstrOut.ok ({ f with stack := s3 } :: rest) true
    else if opcode = IOR then
      let (v2, s1) ← f.stack.PopInt
      let (v1, s2) ← s1.PopInt
      let s3 ← s2.PushInt (wrap32 (Int.ofNat (Nat.lor (v1 % 4294967296).toNat
        (v2 % 4294967296).toNat)))
      return InstrOut.ok ({ f with stack := s3 } :: rest) true
    else if opcode = IXOR then
      let (v2, s1) ← f.stack.PopInt
      let (v1, s2) ← s1.PopInt
      let s3 ← s2.PushInt (wrap32 (Int.ofNat (Nat.xor (v1 % 4294967296).toNat
        (v2 % 4294967296).toNat)))
      return InstrOut.ok ({ f with stack := s3 } :: rest) true
    else if opcode = LAND then
      let (v2, s1) ← f.stack.PopLong
      let (v1, s2) ← s1.PopLong
      let s3 ← s2.PushLong (wrap64 (Int.ofNat (Nat.land (v1 % 18446744073709551616).toNat
        (v2 % 18446744073709551616).toNat)))
      return InstrOut.ok ({ f with stack := s3 } :: rest) true
    else if opcode = LOR then
      let (v2, s1) ← f.stack.PopLong
      let (v1, s2) ← s1.PopLong
      let s3 ← s2.PushLong (wrap64 (Int.ofNat (Nat.lor (v1 % 18446744073709551616).toNat
        (v2 % 18446744073709551616).toNat)))
      return InstrOut.ok ({ f with stack := s3 } :: rest) true
    else if opcode = LXOR then
      let (v2, s1) ← f.stack.PopLong
      let (v1, s2) ← s1.PopLong
      let s3 ← s2.PushLong (wrap64 (Int.ofNat (Nat.xor (v1 % 18446744073709551616).toNat
        (v2 % 18446744073709551616).toNat)))
      return InstrOut.ok ({ f with stack := s3 } :: rest) true
    else if opcode = ISHL then
      let (v2raw, s1) ← f.stack.PopInt
      let v2 := v2raw % 32
      let (v1, s2) ← s1.PopInt
      let s3 ← s2.PushInt (wrap32 (v1 * (2 ^ v2.toNat)))
      return InstrOut.ok ({ f with stack := s3 } :: rest) true
    else if opcode = ISHR then
      let (v2raw, s1) ← f.stack.PopInt
      let v2 := v2raw % 32
      let (v1, s2) ← s1.PopInt
      let s3 ← s2.PushInt (Int.fdiv v1 (2 ^ v2.toNat))
      return InstrOut.ok ({ f with stack := s3 } :: rest) true
    else if opcode = IUSHR then
      let (v2raw, s1) ← f.stack.PopInt
      let v2 := v2raw % 32
      let (v1, s2) ← s1.PopInt
      let s3 ← s2.PushInt (wrap32 (Int.fdiv (v1 % 4294967296) (2 ^ v2.toNat)))
      return InstrOut.ok ({ f with stack := s3 } :: rest) true
    else if opcode = IINC then
      let (index, f1) ← f.ReadU1
      let (constVal, f2) ← f1.ReadI1
      let g ← f2.locals.GetInt index
      let l2 ← f2.locals.SetInt index (wrap32 (g + constVal))
      return InstrOut.ok ({ f2 with locals := l2 } :: rest) true
    else if opcode = I2L then
      let (v, s1) ← f.stack.PopInt
      let s2 ← s1.PushLong v
      return InstrOut.ok ({ f with stack := s2 } :: rest) true
    else if opcode = L2I then
      let (v, s1) ← f.stack.PopLong
      let s2 ← s1.PushInt (wrap32 v)
      return InstrOut.ok ({ f with stack := s2 } :: rest) true
    else if opcode = LCMP then
      let (v2, s1) ← f.stack.PopLong
      let (v1, s2) ← s1.PopLong
      let s3 ← s2.PushInt (if v1 > v2 then 1 else if v1 < v2 then -1 else 0)
      return InstrOut.ok ({ f with stack := s3 } :: rest) true
    else
      return InstrOut.ok frames false

/-! ## Control instructions (`src/unnamed/part_016`) -/

/-- Embeds `executeControlInstruction`: each branch reads its signed offset
(advancing `PC` past the operand bytes), pops its operands, and when taken
sets `PC = PC - 3 + offset` (`- 5` for `goto_w`); returns pop the frame and
push the value onto the caller's operand stack. -/
def executeControlInstruction (frames : List Frame) (opcode : Nat) :
    Option (List Frame × Bool) := do
  match frames with
  | [] => none
  | f :: rest =>
    if opcode = IFEQ then
      let (offset, f1) ← f.ReadI2
      let (v, s1) ← f1.stack.PopInt
      if v = 0 then
        return ({ f1 with pc := f1.pc - 3 + offset, stack := s1 } :: rest, true)
      else return ({ f1 with stack := s1 } :: rest, true)
    else if opcode = IFNE then
      let (offset, f1) ← f.ReadI2
      let (v, s1) ← f1.stack.PopInt
      if v ≠ 0 then
        return ({ f1 with pc := f1.pc - 3 + offset, stack := s1 } :: rest, true)
      else return ({ f1 with stack := s1 } :: rest, true)
    else if opcode = IFLT then
      let (offset, f1) ← f.ReadI2
      let (v, s1) ← f1.stack.PopInt
      if v < 0 then
        return ({ f1 with pc := f1.pc - 3 + offset, stack := s1 } :: rest, true)
      else return ({ f1 with stack := s1 } :: rest, true)
    else if opcode = IFGE then
      let (offset, f1) ← f.ReadI2
      let (v, s1) ← f1.stack.PopInt
      if v ≥ 0 then
        return ({ f1 with pc := f1.pc - 3 + offset, stack := s1 } :: rest, true)
      else return ({ f1 with stack := s1 } :: rest, true)
    else if opcode = IFGT then
      let (offset, f1) ← f.ReadI2
      let (v, s1) ← f1.stack.PopInt
      if v > 0 then
        return ({ f1 with pc := f1.pc - 3 + offset, stack := s1 } :: rest, true)
      else return ({ f1 with stack := s1 } :: rest, true)
    else if opcode = IFLE then
      let (offset, f1) ← f.ReadI2
      let (v, s1) ← f1.stack.PopInt
      if v ≤ 0 then
        return ({ f1 with pc := f1.pc - 3 + offset, stack := s1 } :: rest, true)
      else return ({ f1 with stack := s1 } :: rest, true)
    else if opcode = IF_ICMPEQ then
      let (offset, f1) ← f.ReadI2
      let (v2, s1) ← f1.stack.PopInt
      let (v1, s2) ← s1.PopInt
      if v1 = v2 then
        return ({ f1 with pc := f1.pc - 3 + offset, stack := s2 } :: rest, true)
      else return ({ f1 with stack := s2 } :: rest, true)
    else if opcode = IF_ICMPNE then
      let (offset, f1) ← f.ReadI2
      let (v2, s1) ← f1.stack.PopInt
      let (v1, s2) ← s1.PopInt
      if v1 ≠ v2 then
        return ({ f1 with pc := f1.pc - 3 + offset, stack := s2 } :: rest, true)
      else return ({ f1 with stack := s2 } :: rest, true)
    else if opcode = IF_ICMPLT then
      let (offset, f1) ← f.ReadI2
      let (v2, s1) ← f1.stack.PopInt
      let (v1, s2) ← s1.PopInt
      if v1 < v2 then
        return ({ f1 with pc := f1.pc - 3 + offset, stack := s2 } :: rest, true)
      else return ({ f1 with stack := s2 } :: rest, true)
    else if opcode = IF_ICMPGE then
      let (offset, f1) ← f.ReadI2
      let (v2, s1) ← f1.stack.PopInt
      let (v1, s2) ← s1.PopInt
      if v1 ≥ v2 then
        return ({ f1 with pc := f1.pc - 3 + offset, stack := s2 } :: rest, true)
      else return ({ f1 with stack := s2 } :: rest, true)
    else if opcode = IF_ICMPGT then
      let (offset, f1) ← f.ReadI2
      let (v2, s1) ← f1.stack.PopInt
      let (v1, s2) ← s1.PopInt
      if v1 > v2 then
        return ({ f1 with pc := f1.pc - 3 + offset, stack := s2 } :: rest, true)
      else return ({ f1 with stack := s2 } :: rest, true)
    else if opcode = IF_ICMPLE then
      let (offset, f1) ← f.ReadI2
      let (v2, s1) ← f1.stack.PopInt
      let (v1, s2) ← s1.PopInt
      if v1 ≤ v2 then
        return ({ f1 with pc := f1.pc - 3 + offset, stack := s2 } :: rest, true)
      else return ({ f1 with stack := s2 } :: rest, true)
    else if opcode = IFNULL then
      let (offset, f1) ← f.ReadI2
      let (r, s1) ← f1.stack.PopRef
      if r = Ref.null then
        return ({ f1 with pc := f1.pc - 3 + offset, stack := s1 } :: rest, true)
      else return ({ f1 with stack := s1 } :: rest, true)
    else if opcode = IFNONNULL then
      let (offset, f1) ← f.ReadI2
      let (r, s1) ← f1.stack.PopRef
      if r ≠ Ref.null then
        return ({ f1 with pc := f1.pc - 3 + offset, stack := s1 } :: rest, true)
      else return ({ f1 with stack := s1 } :: rest, true)
    else if opcode = GOTO then
      let (offset, f1) ← f.ReadI2
      return ({ f1 with pc := f1.pc - 3 + offset } :: rest, true)
    else if opcode = GOTO_W then
      let (offset, f1) ← f.ReadI4
      return ({ f1 with pc := f1.pc - 5 + offset } :: rest, true)
    else if opcode = RETURN then
      return (rest, true)
    else if opcode = IRETURN then
      let (retVal, _s1) ← f.stack.PopInt
      match rest with
      | [] => return ([], true)
      | caller :: rs =>
        let cs ← caller.stack.PushInt retVal
        return ({ caller with stack := cs } :: rs, true)
    else if opcode = LRETURN then
      let (retVal, _s1) ← f.stack.PopLong
      match rest with
      | [] => return ([], true)
      | caller :: rs =>
        let cs ← caller.stack.PushLong retVal
        return ({ caller with stack := cs } :: rs, true)
    else if opcode = ARETURN then
      let (retVal, _s1) ← f.stack.PopRef
      match rest with
      | [] => return ([], true)
      | caller :: rs =>
        let cs ← caller.stack.PushRef retVal
        return ({ caller with stack := cs } :: rs, true)
    else
      return (frames, false)

/-! ## Constant instructions (`src/unnamed/part_021` second half,
`src/unnamed/part_019` lines 10-39) -/

/-- Embeds `loadConstant`: `cp[index]` dispatched on the entry kind; an
unmatched kind (nil slot included) pushes nothing.  A float constant is
pushed as `int32` of its raw bits (the source's "Simplified" conversion). -/
def loadConstant (f : Frame) (index : Nat) : Option Frame := do
  let c ← f.cp.get? index
  match c with
  | some (CPInfo.integer v) =>
    let s ← f.stack.PushInt v
    return { f with stack := s }
  | some (CPInfo.float bits) =>
    let s ← f.stack.PushInt (wrap32 (bits : Int))
    return { f with stack := s }
  | some (CPInfo.stringInfo si) =>
    let str ← f.cp.GetUtf8 si
    let s ← f.stack.PushRef (Ref.str str)
    return { f with stack := s }
  | some (CPInfo.classInfo ni) =>
    let str ← f.cp.GetUtf8 ni
    let s ← f.stack.PushRef (Ref.str str)
    return { f with stack := s }
  | _ => return f

/-- Embeds `loadConstant2`: long pushed as is, double pushed as `int64` of
its raw 64-bit payload (the source's "Simplified" conversion). -/
def loadConstant2 (f : Frame) (index : Nat) : Option Frame := do
  let c ← f.cp.get? index
  match c with
  | some (CPInfo.long v) =>
    let s ← f.stack.PushLong v
    return { f with stack := s }
  | some (CPInfo.double bits) =>
    let s ← f.stack.PushLong (wrap64 (bits : Int))
    return { f with stack := s }
  | _ => return f

/-- Embeds `executeConstInstruction`. -/
def executeConstInstruction (f : Frame) (opcode : Nat) : Option (Frame × Bool) := do
  if opcode = NOP then
    return (f, true)
  else if opcode = ACONST_NULL then
    let s ← f.stack.PushRef Ref.null
    return ({ f with stack := s }, true)
  else if opcode = ICONST_M1 then
    let s ← f.stack.PushInt (-1)
    return ({ f with stack := s }, true)
  else if opcode = ICONST_0 then
    let s ← f.stack.PushInt 0
    return ({ f with stack := s }, true)
  else if opcode = ICONST_1 then
    let s ← f.stack.PushInt 1
    return ({ f with stack := s }, true)
  else if opcode = ICONST_2 then
    let s ← f.stack.PushInt 2
    return ({ f with stack := s }, true)
  else if opcode = ICONST_3 then
    let s ← f.stack.PushInt 3
    return ({ f with stack := s }, true)
  else if opcode = ICONST_4 then
    let s ← f.stack.PushInt 4
    return ({ f with stack := s }, true)
  else if opcode = ICONST_5 then
    let s ← f.stack.PushInt 5
    return ({ f with stack := s }, true)
  else if opcode = LCONST_0 then
    let s ← f.stack.PushLong 0
    return ({ f with stack := s }, true)
  else if opcode = LCONST_1 then
    let s ← f.stack.PushLong 1
    return ({ f with stack := s }, true)
  else if opcode = BIPUSH then
    let (v, f1) ← f.ReadI1
    let s ← f1.stack.PushInt v
    return ({ f1 with stack := s }, true)
  else if opcode = SIPUSH then
    let (v, f1) ← f.ReadI2
    let s ← f1.stack.PushInt v
    return ({ f1 with stack := s }, true)
  else if opcode = LDC then
    let (index, f1) ← f.ReadU1
    let f2 ← loadConstant f1 index
    return (f2, true)
  else if opcode = LDC_W then
    let (index, f1) ← f.ReadU2
    let f2 ← loadConstant f1 index
    return (f2, true)
  else if opcode = LDC2_W then
    let (index, f1) ← f.ReadU2
    let f2 ← loadConstant2 f1 index
    return (f2, true)
  else
    return (f, false)

/-! ## Dispatch and run loop (`src/unnamed/part_023`) -/

/-- Embeds `executeInstruction` (`src/unnamed/part_023` lines 218-256) for
the embedded handler subset (constants, math, control, arrays); the handlers
for loads, stores, objects and invokes are outside the subset needed by the
claims, so dispatching to them is left undefined (`none`) rather than
mismodelled.  The `handled` flag is discarded exactly as the source does. -/
def executeInstruction (st : ArrStore) (frames : List Frame) (opcode : Nat) :
    Option (Except String (ArrStore × List Frame)) :=
  match frames with
  | [] => none
  | f :: rest =>
    match Category opcode with
    | OpcodeCategory.const =>
      match executeConstInstruction f opcode with
      | none => none
      | some (f2, _) => some (Except.ok (st, f2 :: rest))
    | OpcodeCategory.math =>
      match executeMathInstruction (f :: rest) opcode with
      | none => none
      | some (InstrOut.ok frames2 _) => some (Except.ok (st, frames2))
      | some (InstrOut.raise e) => some (Except.error e)
    | OpcodeCategory.control =>
      match executeControlInstruction (f :: rest) opcode with
      | none => none
      | some (frames2, _) => some (Except.ok (st, frames2))
    | OpcodeCategory.array =>
      match executeArrayInstruction st f opcode with
      | none => none
      | some (InstrOut.ok (st2, f2) _) => some (Except.ok (st2, f2 :: rest))
      | some (InstrOut.raise e) => some (Except.error e)
    | _ => none

/-- Embeds the `run()` loop (`src/unnamed/part_023` lines 112-140): while the
frame stack is nonempty, pop exhausted frames, read the opcode at `PC`, and
execute it; an error returned by `executeInstruction` is returned from `run`
immediately — it does not enter exception propagation.  The fuel makes the
loop a total function; exhausting it is `none`. -/
def runLoop : Nat → ArrStore → List Frame → Option (Except String (ArrStore × List Frame))
  | 0, _, _ => none
  | _ + 1, st, [] => some (Except.ok (st, []))
  | fuel + 1, st, f :: rest =>
    if (f.codeAttr.code.length : Int) ≤ f.pc then runLoop fuel st rest
    else
      match f.ReadU1 with
      | none => none
      | some (opcode, f1) =>
        match executeInstruction st (f1 :: rest) opcode with
        | none => none
        | some (Except.error e) => some (Except.error e)
        | some (Except.ok (st2, frames2)) => runLoop fuel st2 frames2

/-- A frame about to execute the two offset bytes of a `goto` whose opcode
was at position 0: `PC = 1`, code `A7 00 05`. -/
def gotoDemoFrame : Frame :=
  { pc := 1
    codeAttr := { maxStack := 1, maxLocals := 0, code := [0xA7, 0, 5], exceptionTable := [] }
    cp := []
    locals := NewLocalVars 0
    stack := NewOperandStack 1 }

/-- A frame whose method catches everything: one catch-any entry covering
`[0, 1)` with handler pc 7; the raising instruction is at pc 0 (`PC = 1`). -/
def catchAllDemoFrame : Frame :=
  { pc := 1
    codeAttr := { maxStack := 1, maxLocals := 0, code := [0x6C]
                  exceptionTable := [{ startPC := 0, endPC := 1, handlerPC := 7, catchType := 0 }] }
    cp := []
    locals := NewLocalVars 0
    stack := NewOperandStack 1 }

/-- Constant pool whose entry 1 is a Class info resolving to
`java/lang/ArithmeticException`. -/
def arithCatchDemoCP : ConstantPool :=
  [none, some (CPInfo.classInfo 2), some (CPInfo.utf8 "java/lang/ArithmeticException")]

/-- A frame whose method catches `ArithmeticException` around pc 0 with
handler pc 9; the operand stack holds dividend 7 and divisor 0. -/
def arithCatchDemoFrame : Frame :=
  { pc := 1
    codeAttr := { maxStack := 2, maxLocals := 0, code := [0x6C]
                  exceptionTable := [{ startPC := 0, endPC := 1, handlerPC := 9, catchType := 1 }] }
    cp := arithCatchDemoCP
    locals := NewLocalVars 0
    stack := { size := 2, slots := [7, 0], refs := [Ref.null, Ref.null] } }

/-- A one-frame thread about to execute `iaload` (opcode at pc 0) on a null
array reference with index 5, inside a catch-any handler covering pc 0. -/
def npeDemoFrame : Frame :=
  { pc := 0
    codeAttr := { maxStack := 2, maxLocals := 0, code := [0x2E]
                  exceptionTable := [{ startPC := 0, endPC := 1, handlerPC := 0, catchType := 0 }] }
    cp := []
    locals := NewLocalVars 0
    stack := { size := 2, slots := [0, 5], refs := [Ref.null, Ref.null] } }

/-- Specification-side helper (not from the source): the value pop performed
by each array store opcode before it pops the index and the array reference —
`PopLong` for `lastore`, `PopRef` for `aastore`, `PopFloat`/`PopDouble` (bits
view) for `fastore`/`dastore`, and `PopInt` for the int-family stores. -/
def popStoreValue (op : Nat) (s : OperandStack) : Option OperandStack :=
  if op = LASTORE then (s.PopLong).map Prod.snd
  else if op = AASTORE then (s.PopRef).map Prod.snd
  else if op = FASTORE then (s.PopFloatBits).map Prod.snd
  else if op = DASTORE then (s.PopDoubleBits).map Prod.snd
  else (s.PopInt).map Prod.snd

/-- A single operand-stack operation as invoked by the instruction handlers
(`src/unnamed/part_004`); used to state the depth invariant over arbitrary
operation sequences. -/
inductive StackOp where
  | pushInt : Int → StackOp
  | popInt : StackOp
  | pushLong : Int → StackOp
  | popLong : StackOp
  | pushRef : Ref → StackOp
  | popRef : StackOp
  | pushSlot : Int → StackOp
  | popSlot : StackOp
  | pushFloatBits : Int → StackOp
  | popFloatBits : StackOp
  | pushDoubleBits : Int → StackOp
  | popDoubleBits : StackOp
  | popDiscard : StackOp
  | dup : StackOp
  | swap : StackOp

/-- Dispatches one operand-stack operation. -/
def applyStackOp (s : OperandStack) : StackOp → Option OperandStack
  | StackOp.pushInt v => s.PushInt v
  | StackOp.popInt => (s.PopInt).map Prod.snd
  | StackOp.pushLong v => s.PushLong v
  | StackOp.popLong => (s.PopLong).map Prod.snd
  | StackOp.pushRef r => s.PushRef r
  | StackOp.popRef => (s.PopRef).map Prod.snd
  | StackOp.pushSlot v => s.PushSlot v
  | StackOp.popSlot => (s.PopSlot).map Prod.snd
  | StackOp.pushFloatBits v => s.PushFloatBits v
  | StackOp.popFloatBits => (s.PopFloatBits).map Prod.snd
  | StackOp.pushDoubleBits v => s.PushDoubleBits v
  | StackOp.popDoubleBits => (s.PopDoubleBits).map Prod.snd
  | StackOp.popDiscard => s.PopDiscard
  | StackOp.dup => s.Dup
  | StackOp.swap => s.Swap

/-- Runs a sequence of operand-stack operations; `none` as soon as one is a
Go panic. -/
def applyStackOps : OperandStack → List StackOp → Option OperandStack
  | s, [] => some s
  | s, op :: ops =>
    match applyStackOp s op with
    | none => none
    | some s2 => applyStackOps s2 ops

/-- Well-formedness of an operand stack with backing capacity `cap`. -/
def StackWF (s : OperandStack) (cap : Nat) : Prop :=
  s.slots.length = cap ∧ s.refs.length = cap ∧ s.size ≤ cap

/-- A frame for a method with declared `max_stack = 0` whose single
instruction is `iconst_0`. -/
def zeroStackDemoFrame : Frame :=
  NewFrameFromCode { maxStack := 0, maxLocals := 0, code := [0x03], exceptionTable := [] } []

/-- A one-element byte array (`new byte[1]`) used to exercise the truncating
stores. -/
def byteDemoArr : ArrayObj :=
  { type := 8
    className := "[B"
    length := 1
    ints := some [0]
    longs := none
    floats := none
    doubles := none
    references := none }

/-- A frame about to execute `bastore`: operand stack holds (bottom to top)
the array reference, index 0 and the value 200. -/
def byteStoreDemoFrame : Frame :=
  { NewFrameFromCode
      { maxStack := 3, maxLocals := 0, code := [0x54], exceptionTable := [] } [] with
    stack := { size := 3, slots := [0, 0, 200], refs := [Ref.arr 0, Ref.null, Ref.null] } }

/-- A frame about to execute `baload` on the same array at index 0. -/
def byteLoadDemoFrame : Frame :=
  { NewFrameFromCode
      { maxStack := 2, maxLocals := 0, code := [0x33], exceptionTable := [] } [] with
    stack := { size := 2, slots := [0, 0], refs := [Ref.arr 0, Ref.null] } }

/-! # Theorems -/

mutual
/-- No case of the Go `mark` switch ever adds an id to the `marked` map, so
marking leaves the set unchanged. -/
theorem markValue_fix : ∀ (v : HVal) (marked : List Nat), markValue v marked = marked
  | HVal.null, _ => rfl
  | HVal.obj fs _, m => by
      rw [markValue]
      exact markValueList_fix fs m
  | HVal.arr (some rs) _ _ _ _, m => by
      rw [markValue]
      exact markValueList_fix rs m
  | HVal.arr none _ _ _ _, _ => rfl
  | HVal.str _, _ => rfl
  | HVal.frame rs, m => by
      rw [markValue]
      exact markValueList_fix rs m
  | HVal.other, _ => rfl

theorem markValueList_fix : ∀ (vs : List HVal) (marked : List Nat), markValueList vs marked = marked
  | [], _ => rfl
  | v :: vs, m => by
      rw [markValueList, markValue_fix v m]
      exact markValueList_fix vs m
end

/-- Marking from any root set yields the empty marked set. -/
theorem markRoots_nil (roots : List HVal) :
    roots.foldl (fun m root => markValue root m) [] = [] := by
  induction roots with
  | nil => rfl
  | cons r rs ih => simp [List.foldl, markValue_fix, ih]

/-- With GC enabled, a collection empties the object map no matter what the
roots are: the mark phase records nothing, so the sweep deletes every entry. -/
theorem gc_sweeps_everything (h : Heap) (roots : List HVal)
    (hen : h.gcEnabled = true) : (h.GC roots).objects = [] := by
  simp only [Heap.GC, hen, markRoots_nil]
  simp [List.filter_eq_nil_iff]

/-- Claim C1: after `Heap.GC(R)` every id whose object is reachable from the
root set `R` should still be present.  Evaluating the code at the failing
input refutes this: the heap holds id 1 whose object is itself a member of
the root set (trivially reachable), yet after `GC` the object map is empty
and id 1 resolves to nothing, because `Heap.mark` never records any id in
the `marked` map and the sweep therefore deletes every entry. -/
theorem heapGC_deletes_reachable_root :
    (gcDemoHeap.GC [gcDemoObj]).objects = [] ∧
      (gcDemoHeap.GC [gcDemoObj]).Get 1 = none := by
  constructor <;> rfl

/-- Claim C9: when `Heap.Alloc` pushes the accumulated byte estimate over the
threshold with GC enabled, it synchronously runs `GC(nil)`; with an empty
root set nothing is marked, so the collection removes every registered
object, including the one just allocated. -/
theorem alloc_over_threshold_empties_heap (h : Heap) (obj : HVal)
    (hen : h.gcEnabled = true)
    (hth : h.totalBytes + estimateSize obj > h.gcThreshold) :
    ((h.Alloc obj).2).objects = [] ∧
      ((h.Alloc obj).2).Get ((h.Alloc obj).1) = none := by
  simp only [Heap.Alloc]
  rw [if_pos ⟨hen, hth⟩]
  have hobj := gc_sweeps_everything
    ({ h with
        nextID := h.nextID + 1
        allocCount := h.allocCount + 1
        objects := h.objects ++ [(h.nextID + 1, obj)]
        totalBytes := h.totalBytes + estimateSize obj }) [] hen
  exact ⟨hobj, by simp [Heap.Get, hobj]⟩

/-- Witness for `alloc_over_threshold_empties_heap` at a concrete heap. -/
theorem alloc_over_threshold_empties_heap_witness :
    allocDemoHeap.gcEnabled = true ∧
      allocDemoHeap.totalBytes + estimateSize HVal.other > allocDemoHeap.gcThreshold ∧
      ((allocDemoHeap.Alloc HVal.other).2).objects = [] :=
  ⟨rfl, by decide,
    (alloc_over_threshold_empties_heap allocDemoHeap HVal.other rfl (by decide)).1⟩

/-- `popMin` returns `none` only on the empty heap. -/
theorem popMin_eq_none {ts : List TimerTask} (h : popMin ts = none) : ts = [] := by
  cases ts with
  | nil => rfl
  | cons t ts =>
    rw [popMin] at h
    rcases hpm : popMin ts with _ | ⟨m, rest⟩ <;> rw [hpm] at h
    · exact absurd h (by simp)
    · by_cases hle : t.deadline ≤ m.deadline <;> simp [hle] at h

/-- The heap is a permutation of the popped element and the rest. -/
theorem popMin_perm : ∀ {ts : List TimerTask} {t rest},
    popMin ts = some (t, rest) → ts.Perm (t :: rest)
  | [], _, _, h => by simp [popMin] at h
  | t0 :: ts, t, rest, h => by
    rw [popMin] at h
    rcases hpm : popMin ts with _ | ⟨m, r⟩ <;> rw [hpm] at h
    · obtain ⟨rfl, rfl⟩ : t0 = t ∧ ts = rest := by simpa using h
      exact List.Perm.refl _
    · by_cases hle : t0.deadline ≤ m.deadline
      · obtain ⟨rfl, rfl⟩ : t0 = t ∧ ts = rest := by simpa [hle] using h
        exact List.Perm.refl _
      · obtain ⟨rfl, rfl⟩ : m = t ∧ t0 :: r = rest := by simpa [hle] using h
        exact ((popMin_perm hpm).cons t0).trans (List.Perm.swap m t0 r)

/-- The popped element has minimal deadline. -/
theorem popMin_min : ∀ {ts : List TimerTask} {t rest},
    popMin ts = some (t, rest) → ∀ u ∈ ts, t.deadline ≤ u.deadline
  | [], _, _, h => by simp [popMin] at h
  | t0 :: ts, t, rest, h => by
    rw [popMin] at h
    rcases hpm : popMin ts with _ | ⟨m, r⟩ <;> rw [hpm] at h
    · obtain ⟨rfl, rfl⟩ : t0 = t ∧ ts = rest := by simpa using h
      have hnil : ts = [] := popMin_eq_none hpm
      subst hnil
      intro u hu
      simp at hu
      simp [hu]
    · by_cases hle : t0.deadline ≤ m.deadline
      · obtain ⟨rfl, rfl⟩ : t0 = t ∧ ts = rest := by simpa [hle] using h
        intro u hu
        rcases List.mem_cons.mp hu with rfl | hu
        · exact le_refl _
        · exact le_trans hle (popMin_min hpm u hu)
      · obtain ⟨rfl, rfl⟩ : m = t ∧ t0 :: r = rest := by simpa [hle] using h
        intro u hu
        rcases List.mem_cons.mp hu with rfl | hu
        · exact le_of_lt (lt_of_not_le hle)
        · exact popMin_min hpm u hu

/-- Permutations preserve the number of ready timers. -/
theorem readyCount_perm {now : Int} {ts us : List TimerTask} (h : ts.Perm us) :
    readyCount now ts = readyCount now us :=
  (h.filter _).length_eq

/-- Timers whose deadline has not passed survive the firing loop. -/
theorem fireAux_keeps_future (fuel : Nat) :
    ∀ (now : Int) (timers fired : List TimerTask) (u : TimerTask),
      u ∈ timers → now < u.deadline → u ∈ (fireReadyTimersAux fuel now timers fired).2 := by
  induction fuel with
  | zero =>
    intro now timers fired u hu _
    simpa [fireReadyTimersAux] using hu
  | succ n ih =>
    intro now timers fired u hu hfut
    rw [fireReadyTimersAux]
    rcases hpm : popMin timers with _ | ⟨t, rest⟩
    · simpa using hu
    · by_cases hbrk : now < t.deadline
      · simpa [hbrk] using hu
      · simp only [hbrk, if_false]
        apply ih
        · have hmem : u ∈ t :: rest := (popMin_perm hpm).mem_iff.mp hu
          rcases List.mem_cons.mp hmem with rfl | hur
          · exact absurd hfut hbrk
          · by_cases hint : 0 < t.interval <;> simp [hint, hur]
        · exact hfut

/-- Every timer fired by the loop had a passed deadline, and every fired
periodic timer is back in the resulting heap with deadline `now + interval`. -/
theorem fireAux_fired_spec (fuel : Nat) :
    ∀ (now : Int) (timers fired : List TimerTask) (t : TimerTask),
      t ∈ (fireReadyTimersAux fuel now timers fired).1 →
      t ∈ fired ∨ (t.deadline ≤ now ∧ (0 < t.interval →
        { t with deadline := now + t.interval } ∈ (fireReadyTimersAux fuel now timers fired).2)) := by
  induction fuel with
  | zero =>
    intro now timers fired t ht
    left
    simpa [fireReadyTimersAux] using ht
  | succ n ih =>
    intro now timers fired t ht
    rw [fireReadyTimersAux] at ht ⊢
    rcases hpm : popMin timers with _ | ⟨t0, rest⟩
    · rw [hpm] at ht
      dsimp only at ht ⊢
      left
      simpa using ht
    · rw [hpm] at ht
      dsimp only at ht ⊢
      by_cases hbrk : now < t0.deadline
      · rw [if_pos hbrk] at ht ⊢
        left
        simpa using ht
      · rw [if_neg hbrk] at ht ⊢
        rcases ih now _ _ t ht with hmem | hrest
        · rcases List.mem_cons.mp hmem with rfl | hfired
          · refine Or.inr ⟨le_of_not_lt hbrk, fun hint => ?_⟩
            apply fireAux_keeps_future
            · simp [hint]
            · dsimp only
              omega
          · exact Or.inl hfired
        · exact Or.inr hrest

/-- After the firing loop no remaining timer has a passed deadline, provided
the fuel covers the initially ready timers. -/
theorem fireAux_clears_ready (fuel : Nat) :
    ∀ (now : Int) (timers fired : List TimerTask), readyCount now timers ≤ fuel →
      ∀ u ∈ (fireReadyTimersAux fuel now timers fired).2, now < u.deadline := by
  induction fuel with
  | zero =>
    intro now timers fired hrc u hu
    have hzero : readyCount now timers = 0 := Nat.le_zero.mp hrc
    rw [readyCount, List.length_eq_zero] at hzero
    have hmem : u ∈ timers := by simpa [fireReadyTimersAux] using hu
    have := List.filter_eq_nil_iff.mp hzero u hmem
    simp at this
    omega
  | succ n ih =>
    intro now timers fired hrc u hu
    rw [fireReadyTimersAux] at hu
    rcases hpm : popMin timers with _ | ⟨t, rest⟩
    · rw [hpm] at hu
      dsimp only at hu
      have hnil := popMin_eq_none hpm
      subst hnil
      simp at hu
    · rw [hpm] at hu
      dsimp only at hu
      by_cases hbrk : now < t.deadline
      · rw [if_pos hbrk] at hu
        simp at hu
        exact lt_of_lt_of_le hbrk (popMin_min hpm u hu)
      · rw [if_neg hbrk] at hu
        refine ih now _ _ ?_ u hu
        have h1 : readyCount now timers = readyCount now (t :: rest) :=
          readyCount_perm (popMin_perm hpm)
        have h2 : readyCount now (t :: rest) = readyCount now rest + 1 := by
          simp [readyCount, List.filter, le_of_not_lt hbrk]
        have h3 : readyCount now
            (if 0 < t.interval then { t with deadline := now + t.interval } :: rest else rest)
            = readyCount now rest := by
          by_cases hint : 0 < t.interval
          · have : ¬ ({ t with deadline := now + t.interval } : TimerTask).deadline ≤ now := by
              simp
              omega
            simp [hint, readyCount, List.filter, this]
          · simp [hint]
        omega

/-- Claim C4 (amended): within one tick, all timers whose deadline has passed
fire during the timer phase and before the single task dispatch — afterwards
no remaining timer is due; each fired periodic timer is rescheduled at the
tick's current time plus its interval (`now + interval`, not at the old
deadline plus the interval); the tick dispatches exactly one queued task
after the timer phase; and the run loop returns when both the task queue and
the timer heap are empty. -/
theorem eventLoop_tick_spec (now : Int) (el : EventLoop) :
    (∀ t ∈ (fireReadyTimers now el.timers).1, t.deadline ≤ now) ∧
    (∀ u ∈ (fireReadyTimers now el.timers).2, now < u.deadline) ∧
    (∀ t ∈ (fireReadyTimers now el.timers).1, 0 < t.interval →
        { t with deadline := now + t.interval } ∈ (fireReadyTimers now el.timers).2) ∧
    (∀ task rest, el.tasks = task :: rest →
        el.tick now = TickOutcome.stepped (fireReadyTimers now el.timers).1 (some task)
          { tasks := rest, timers := (fireReadyTimers now el.timers).2 }) ∧
    (el.tasks = [] → el.timers = [] →
        el.tick now = TickOutcome.finished { tasks := [], timers := [] }) := by
  refine ⟨?_, ?_, ?_, ?_, ?_⟩
  · intro t ht
    rcases fireAux_fired_spec _ now el.timers [] t ht with hmem | hspec
    · simp at hmem
    · exact hspec.1
  · exact fun u hu =>
      fireAux_clears_ready _ now el.timers [] (List.length_filter_le _ _) u hu
  · intro t ht hint
    rcases fireAux_fired_spec _ now el.timers [] t ht with hmem | hspec
    · simp at hmem
    · exact hspec.2 hint
  · intro task rest htasks
    simp [EventLoop.tick, htasks]
  · intro htasks htimers
    simp [EventLoop.tick, htasks, htimers, fireReadyTimers, fireReadyTimersAux]

/-- Witness for `eventLoop_tick_spec`: a periodic timer with deadline 0 and
interval 10 fired at time 5 is rescheduled at deadline `5 + 10 = 15`. -/
theorem eventLoop_tick_spec_witness :
    periodicDemoTimer ∈ (fireReadyTimers 5 [periodicDemoTimer]).1 ∧
      0 < periodicDemoTimer.interval ∧
      { periodicDemoTimer with deadline := 5 + periodicDemoTimer.interval }
        ∈ (fireReadyTimers 5 [periodicDemoTimer]).2 :=
  ⟨by decide, by decide,
    (eventLoop_tick_spec 5 { tasks := [], timers := [periodicDemoTimer] }).2.2.1
      periodicDemoTimer (by decide) (by decide)⟩

/-- Claim C4 counterexample: the claim says a periodic timer fired in a tick
is rescheduled at its old deadline plus the interval (deadlines t0, t0+p,
t0+2p, ...).  Firing the timer (deadline 0, interval 10) in a tick at time 5
actually reschedules it at 15, the tick time plus the interval, not at
0 + 10 = 10. -/
theorem timer_reschedule_uses_now_not_deadline :
    (fireReadyTimers 5 [periodicDemoTimer]).2 =
      [{ id := 1, name := "p", deadline := 15, interval := 10 }] ∧
      ¬ ((15 : Int) = periodicDemoTimer.deadline + periodicDemoTimer.interval) := by
  constructor
  · rfl
  · decide

/-- A single completed monitor operation preserves the monitor invariant. -/
theorem monStep_inv {m m2 : Monitor} {op : MonOp} (hinv : MonInv m)
    (hstep : monStep m op = some m2) : MonInv m2 := by
  obtain ⟨hnn, hiff⟩ := hinv
  cases op with
  | enter t =>
    simp only [monStep, Monitor.Enter] at hstep
    by_cases hc : m.owner = none ∨ m.owner = some t
    · rw [if_pos hc] at hstep
      obtain rfl := Option.some.inj hstep
      refine ⟨?_, ?_⟩
      · show (0 : Int) ≤ m.entryCount + 1
        omega
      · show (Option.some t).isSome = true ↔ 0 < m.entryCount + 1
        exact ⟨fun _ => by omega, fun _ => rfl⟩
    · rw [if_neg hc] at hstep
      cases hstep
  | exit t =>
    simp only [monStep, Monitor.Exit] at hstep
    by_cases hc : m.owner = some t
    · rw [if_pos hc] at hstep
      dsimp only at hstep
      obtain rfl := Option.some.inj hstep
      have hpos : 0 < m.entryCount := hiff.mp (by rw [hc]; rfl)
      refine ⟨?_, ?_⟩
      · show (0 : Int) ≤ m.entryCount - 1
        omega
      · show (if m.entryCount - 1 = 0 then none else m.owner).isSome = true ↔
          0 < m.entryCount - 1
        by_cases hz : m.entryCount - 1 = 0
        · rw [if_pos hz, hz]
          simp
        · rw [if_neg hz, hc]
          exact ⟨fun _ => by omega, fun _ => rfl⟩
    · rw [if_neg hc] at hstep
      dsimp only at hstep
      obtain rfl := Option.some.inj hstep
      exact ⟨hnn, hiff⟩

/-- Completed monitor-operation sequences preserve the invariant. -/
theorem monRun_inv : ∀ (ops : List MonOp) (m0 m : Monitor), MonInv m0 →
    monRun m0 ops = some m → MonInv m
  | [], m0, m, hinv, hrun => by
    obtain rfl : m0 = m := Option.some.inj hrun
    exact hinv
  | op :: ops, m0, m, hinv, hrun => by
    rw [monRun] at hrun
    rcases hstep : monStep m0 op with _ | m1
    · rw [hstep] at hrun
      exact absurd hrun (by simp)
    · rw [hstep] at hrun
      exact monRun_inv ops m1 m (monStep_inv hinv hstep) hrun

/-- Claim C6: on a fresh monitor, `monitorenter` followed by a balanced
`monitorexit` by the same thread leaves the owner unset and `entry_count = 0`;
and along any completed sequence of monitor operations starting from a fresh
monitor, `entry_count ≥ 0` and the owner is set exactly when
`entry_count > 0` (every point of a sequence is itself the result of a
prefix, which this quantification covers). -/
theorem monitor_enter_exit_spec :
    (∀ t : Nat, ∃ m1 m2, NewMonitor.Enter t = some m1 ∧ m1.Exit t = Except.ok m2 ∧
        m2.owner = none ∧ m2.entryCount = 0) ∧
    (∀ (ops : List MonOp) (m : Monitor), monRun NewMonitor ops = some m → MonInv m) := by
  constructor
  · intro t
    refine ⟨{ owner := some t, entryCount := 1 }, { owner := none, entryCount := 0 },
      ?_, ?_, rfl, rfl⟩
    · show (if (none : Option Nat) = none ∨ (none : Option Nat) = some t then _ else _) = _
      rw [if_pos (Or.inl rfl)]
      simp [NewMonitor]
    · show (if (some t : Option Nat) = some t then _ else _) = _
      rw [if_pos rfl]
      simp
  · intro ops m hrun
    refine monRun_inv ops NewMonitor m ⟨le_refl 0, ?_⟩ hrun
    show (none : Option Nat).isSome = true ↔ (0 : Int) < 0
    simp

/-- Witness for `monitor_enter_exit_spec`: the invariant holds after the
completed sequence `enter 7; enter 7; exit 7`. -/
theorem monitor_enter_exit_spec_witness :
    MonInv { owner := some 7, entryCount := 1 } :=
  monitor_enter_exit_spec.2 [MonOp.enter 7, MonOp.enter 7, MonOp.exit 7]
    { owner := some 7, entryCount := 1 } (by decide)

/-- A successful `ReadU1` only advances the program counter. -/
theorem ReadU1_frame {f : Frame} {b : Nat} {f1 : Frame} (h : f.ReadU1 = some (b, f1)) :
    f1 = { f with pc := f.pc + 1 } := by
  rw [Frame.ReadU1] at h
  by_cases hc : 0 ≤ f.pc ∧ f.pc < (f.codeAttr.code.length : Int)
  · rw [if_pos hc] at h
    simp only [Option.some.injEq, Prod.mk.injEq] at h
    exact h.2.symm
  · rw [if_neg hc] at h
    cases h

/-- A successful `ReadI1` advances the program counter by 1. -/
theorem ReadI1_frame {f : Frame} {v : Int} {f1 : Frame} (h : f.ReadI1 = some (v, f1)) :
    f1 = { f with pc := f.pc + 1 } := by
  rcases hu : f.ReadU1 with _ | ⟨b, g⟩
  · rw [Frame.ReadI1, hu] at h
    cases h
  · rw [Frame.ReadI1, hu] at h
    have h2 := (Prod.ext_iff.mp (Option.some.inj h)).2
    dsimp only at h2
    rw [← h2]
    exact ReadU1_frame hu

/-- A successful `ReadU2` advances the program counter by 2. -/
theorem ReadU2_frame {f : Frame} {n : Nat} {f1 : Frame} (h : f.ReadU2 = some (n, f1)) :
    f1 = { f with pc := f.pc + 2 } := by
  rcases hu1 : f.ReadU1 with _ | ⟨b1, g1⟩
  · simp [Frame.ReadU2, hu1] at h
  · rcases hu2 : g1.ReadU1 with _ | ⟨b2, g2⟩
    · simp [Frame.ReadU2, hu1, hu2] at h
    · simp only [Frame.ReadU2, hu1, hu2, Option.bind_eq_bind, Option.some_bind,
        Option.some.injEq, Prod.mk.injEq] at h
      rw [← h.2, ReadU1_frame hu2, ReadU1_frame hu1]
      dsimp only
      rw [(by omega : f.pc + 1 + 1 = f.pc + 2)]

/-- A successful `ReadI2` advances the program counter by 2. -/
theorem ReadI2_frame {f : Frame} {v : Int} {f1 : Frame} (h : f.ReadI2 = some (v, f1)) :
    f1 = { f with pc := f.pc + 2 } := by
  rcases hu : f.ReadU2 with _ | ⟨n, g⟩
  · rw [Frame.ReadI2, hu] at h
    cases h
  · rw [Frame.ReadI2, hu] at h
    have h2 := (Prod.ext_iff.mp (Option.some.inj h)).2
    dsimp only at h2
    rw [← h2]
    exact ReadU2_frame hu

/-- A successful `ReadI4` advances the program counter by 4. -/
theorem ReadI4_frame {f : Frame} {v : Int} {f1 : Frame} (h : f.ReadI4 = some (v, f1)) :
    f1 = { f with pc := f.pc + 4 } := by
  rcases hu1 : f.ReadU1 with _ | ⟨b1, g1⟩
  · simp [Frame.ReadI4, hu1] at h
  · rcases hu2 : g1.ReadU1 with _ | ⟨b2, g2⟩
    · simp [Frame.ReadI4, hu1, hu2] at h
    · rcases hu3 : g2.ReadU1 with _ | ⟨b3, g3⟩
      · simp [Frame.ReadI4, hu1, hu2, hu3] at h
      · rcases hu4 : g3.ReadU1 with _ | ⟨b4, g4⟩
        · simp [Frame.ReadI4, hu1, hu2, hu3, hu4] at h
        · simp only [Frame.ReadI4, hu1, hu2, hu3, hu4, Option.bind_eq_bind,
            Option.some_bind, Option.some.injEq, Prod.mk.injEq] at h
          rw [← h.2, ReadU1_frame hu4, ReadU1_frame hu3, ReadU1_frame hu2,
            ReadU1_frame hu1]
          dsimp only
          rw [(by omega : f.pc + 1 + 1 + 1 + 1 = f.pc + 4)]

/-- Claim C8: for every taken conditional branch (`ifeq`, `ifne`, `iflt`,
`ifge`, `ifgt`, `ifle`, `if_icmp*`, `ifnull`, `ifnonnull`) and for `goto`,
the new program counter is the position of the opcode byte (`f.pc - 1`,
since the dispatch loop enters the handler immediately after reading the
opcode) plus the signed 16-bit offset operand; for `goto_w` it is the opcode
position plus the signed 32-bit offset operand. -/
theorem branch_pc_is_opcode_position_plus_offset :
    (∀ (f : Frame) (rest : List Frame) (offset v : Int) (f1 : Frame) (s1 : OperandStack),
      f.ReadI2 = some (offset, f1) → f1.stack.PopInt = some (v, s1) →
      ((v = 0 → executeControlInstruction (f :: rest) IFEQ =
          some ({ f1 with pc := (f.pc - 1) + offset, stack := s1 } :: rest, true)) ∧
       (¬ v = 0 → executeControlInstruction (f :: rest) IFNE =
          some ({ f1 with pc := (f.pc - 1) + offset, stack := s1 } :: rest, true)) ∧
       (v < 0 → executeControlInstruction (f :: rest) IFLT =
          some ({ f1 with pc := (f.pc - 1) + offset, stack := s1 } :: rest, true)) ∧
       (0 ≤ v → executeControlInstruction (f :: rest) IFGE =
          some ({ f1 with pc := (f.pc - 1) + offset, stack := s1 } :: rest, true)) ∧
       (0 < v → executeControlInstruction (f :: rest) IFGT =
          some ({ f1 with pc := (f.pc - 1) + offset, stack := s1 } :: rest, true)) ∧
       (v ≤ 0 → executeControlInstruction (f :: rest) IFLE =
          some ({ f1 with pc := (f.pc - 1) + offset, stack := s1 } :: rest, true)))) ∧
    (∀ (f : Frame) (rest : List Frame) (offset v1 v2 : Int) (f1 : Frame)
        (s1 s2 : OperandStack),
      f.ReadI2 = some (offset, f1) → f1.stack.PopInt = some (v2, s1) →
      s1.PopInt = some (v1, s2) →
      ((v1 = v2 → executeControlInstruction (f :: rest) IF_ICMPEQ =
          some ({ f1 with pc := (f.pc - 1) + offset, stack := s2 } :: rest, true)) ∧
       (¬ v1 = v2 → executeControlInstruction (f :: rest) IF_ICMPNE =
          some ({ f1 with pc := (f.pc - 1) + offset, stack := s2 } :: rest, true)) ∧
       (v1 < v2 → executeControlInstruction (f :: rest) IF_ICMPLT =
          some ({ f1 with pc := (f.pc - 1) + offset, stack := s2 } :: rest, true)) ∧
       (v2 ≤ v1 → executeControlInstruction (f :: rest) IF_ICMPGE =
          some ({ f1 with pc := (f.pc - 1) + offset, stack := s2 } :: rest, true)) ∧
       (v2 < v1 → executeControlInstruction (f :: rest) IF_ICMPGT =
          some ({ f1 with pc := (f.pc - 1) + offset, stack := s2 } :: rest, true)) ∧
       (v1 ≤ v2 → executeControlInstruction (f :: rest) IF_ICMPLE =
          some ({ f1 with pc := (f.pc - 1) + offset, stack := s2 } :: rest, true)))) ∧
    (∀ (f : Frame) (rest : List Frame) (offset : Int) (f1 : Frame) (r : Ref)
        (s1 : OperandStack),
      f.ReadI2 = some (offset, f1) → f1.stack.PopRef = some (r, s1) →
      ((r = Ref.null → executeControlInstruction (f :: rest) IFNULL =
          some ({ f1 with pc := (f.pc - 1) + offset, stack := s1 } :: rest, true)) ∧
       (¬ r = Ref.null → executeControlInstruction (f :: rest) IFNONNULL =
          some ({ f1 with pc := (f.pc - 1) + offset, stack := s1 } :: rest, true)))) ∧
    (∀ (f : Frame) (rest : List Frame) (offset : Int) (f1 : Frame),
      f.ReadI2 = some (offset, f1) →
      executeControlInstruction (f :: rest) GOTO =
        some ({ f1 with pc := (f.pc - 1) + offset } :: rest, true)) ∧
    (∀ (f : Frame) (rest : List Frame) (offset : Int) (f1 : Frame),
      f.ReadI4 = some (offset, f1) →
      executeControlInstruction (f :: rest) GOTO_W =
        some ({ f1 with pc := (f.pc - 1) + offset } :: rest, true)) := by
  refine ⟨?_, ?_, ?_, ?_, ?_⟩
  · intro f rest offset v f1 s1 hread hpop
    have hf1 := ReadI2_frame hread
    subst hf1
    refine ⟨fun hv => ?_, fun hv => ?_, fun hv => ?_, fun hv => ?_, fun hv => ?_,
      fun hv => ?_⟩ <;>
      simp [executeControlInstruction, IFEQ, IFNE, IFLT, IFGE, IFGT, IFLE,
        hread, hpop, hv, ge_iff_le] <;> omega
  · intro f rest offset v1 v2 f1 s1 s2 hread hpop1 hpop2
    have hf1 := ReadI2_frame hread
    subst hf1
    refine ⟨fun hv => ?_, fun hv => ?_, fun hv => ?_, fun hv => ?_, fun hv => ?_,
      fun hv => ?_⟩ <;>
      simp [executeControlInstruction, IF_ICMPEQ, IF_ICMPNE, IF_ICMPLT, IF_ICMPGE,
        IF_ICMPGT, IF_ICMPLE, hread, hpop1, hpop2, hv, ge_iff_le] <;> omega
  · intro f rest offset f1 r s1 hread hpop
    have hf1 := ReadI2_frame hread
    subst hf1
    refine ⟨fun hv => ?_, fun hv => ?_⟩ <;>
      simp [executeControlInstruction, IFNULL, IFNONNULL, hread, hpop, hv] <;> omega
  · intro f rest offset f1 hread
    have hf1 := ReadI2_frame hread
    subst hf1
    simp [executeControlInstruction, GOTO, hread]
    omega
  · intro f rest offset f1 hread
    have hf1 := ReadI4_frame hread
    subst hf1
    simp [executeControlInstruction, GOTO_W, hread]
    omega

/-- Witness for `branch_pc_is_opcode_position_plus_offset`: the `goto` at
position 0 with offset 5 jumps to 0 + 5. -/
theorem branch_pc_witness :
    gotoDemoFrame.ReadI2 = some (5, { gotoDemoFrame with pc := 3 }) ∧
      executeControlInstruction [gotoDemoFrame] GOTO =
        some ([{ { gotoDemoFrame with pc := 3 } with
          pc := (gotoDemoFrame.pc - 1) + 5 }], true) :=
  ⟨by decide, branch_pc_is_opcode_position_plus_offset.2.2.2.1 gotoDemoFrame [] 5
    { gotoDemoFrame with pc := 3 } (by decide)⟩

/-- Popping an int preserves the lengths of both backing arrays. -/
theorem PopInt_lengths {s : OperandStack} {v : Int} {s2 : OperandStack}
    (h : s.PopInt = some (v, s2)) :
    s2.slots.length = s.slots.length ∧ s2.refs.length = s.refs.length := by
  rw [OperandStack.PopInt] at h
  by_cases hc : 0 < s.size ∧ s.size - 1 < s.refs.length ∧ s.size - 1 < s.slots.length
  · rw [if_pos hc] at h
    have h2 := (Prod.ext_iff.mp (Option.some.inj h)).2
    dsimp only at h2
    rw [← h2]
    simp
  · rw [if_neg hc] at h
    cases h

/-- Popping a long preserves the lengths of both backing arrays. -/
theorem PopLong_lengths {s : OperandStack} {v : Int} {s2 : OperandStack}
    (h : s.PopLong = some (v, s2)) :
    s2.slots.length = s.slots.length ∧ s2.refs.length = s.refs.length := by
  rw [OperandStack.PopLong] at h
  by_cases hc : 0 < s.size ∧ s.size - 1 < s.refs.length ∧ s.size - 1 < s.slots.length
  · rw [if_pos hc] at h
    have h2 := (Prod.ext_iff.mp (Option.some.inj h)).2
    dsimp only at h2
    rw [← h2]
    simp
  · rw [if_neg hc] at h
    cases h

/-- Clearing and pushing the exception reference succeeds on any stack with
non-empty backing arrays, and yields a stack of depth 1 whose only ref cell
holds the reference. -/
theorem clear_pushRef (s : OperandStack) (r : Ref)
    (hs : 0 < s.slots.length) (hr : 0 < s.refs.length) :
    (s.Clear).PushRef r =
      some { size := 1, slots := s.slots.set 0 0, refs := s.refs.set 0 r } ∧
    ({ size := 1, slots := s.slots.set 0 0, refs := s.refs.set 0 r }
      : OperandStack).size = 1 ∧
    ({ size := 1, slots := s.slots.set 0 0, refs := s.refs.set 0 r }
      : OperandStack).refs.getD 0 Ref.null = r := by
  refine ⟨?_, rfl, ?_⟩
  · rw [OperandStack.Clear, OperandStack.PushRef]
    simp only
    rw [if_pos ⟨hs, hr⟩]
  · simp [List.getD, List.getElem?_set_self, hr]

/-- `handleException` with no matching handler in any frame pops everything
and reports the uncaught exception. -/
theorem handleException_nomatch (exRef : Ref) (cls : String) :
    ∀ (frames : List Frame),
      (∀ fr ∈ frames, FindExceptionHandler fr.codeAttr fr.cp (fr.pc - 1) cls = some (-1)) →
      handleException frames exRef cls =
        some (Except.error ("uncaught exception: " ++ cls))
  | [], _ => rfl
  | f :: rest, hall => by
    rw [handleException, hall f (List.mem_cons_self f rest)]
    dsimp only
    rw [if_neg (by omega : ¬ (0 : Int) ≤ -1)]
    exact handleException_nomatch exRef cls rest fun g hg =>
      hall g (List.mem_cons_of_mem f hg)

/-- `handleException` enters the handler of the first frame (scanning from
the top) whose exception table matches, pops the frames above it, and leaves
the frames below untouched. -/
theorem handleException_match (exRef : Ref) (cls : String) :
    ∀ (pre : List Frame) (fr : Frame) (post : List Frame) (hpc : Int)
      (s2 : OperandStack),
      (∀ g ∈ pre, FindExceptionHandler g.codeAttr g.cp (g.pc - 1) cls = some (-1)) →
      FindExceptionHandler fr.codeAttr fr.cp (fr.pc - 1) cls = some hpc →
      0 ≤ hpc →
      (fr.stack.Clear).PushRef exRef = some s2 →
      handleException (pre ++ fr :: post) exRef cls =
        some (Except.ok ({ fr with pc := hpc, stack := s2 } :: post))
  | [], fr, post, hpc, s2, _, hfind, hge, hpush => by
    rw [List.nil_append, handleException, hfind]
    dsimp only
    rw [if_pos hge, hpush]
  | g :: pre, fr, post, hpc, s2, hpre, hfind, hge, hpush => by
    rw [List.cons_append, handleException, hpre g (List.mem_cons_self g pre)]
    dsimp only
    rw [if_neg (by omega : ¬ (0 : Int) ≤ -1)]
    exact handleException_match exRef cls pre fr post hpc s2
      (fun g2 hg2 => hpre g2 (List.mem_cons_of_mem g hg2)) hfind hge hpush

/-- Claim C3: exception propagation searches frames from the top of the
stack inward; the first frame whose exception table yields a handler for the
raising pc (`frame.PC - 1`) has its program counter set to the handler pc
and its operand stack cleared and then holding exactly the exception
reference, with the frames above popped and those below untouched; when no
frame matches, every frame is popped and the result is the report
`uncaught exception: <class-name>`. -/
theorem handleException_spec (exRef : Ref) (cls : String) :
    (∀ (frames : List Frame),
      (∀ fr ∈ frames,
        FindExceptionHandler fr.codeAttr fr.cp (fr.pc - 1) cls = some (-1)) →
      handleException frames exRef cls =
        some (Except.error ("uncaught exception: " ++ cls))) ∧
    (∀ (pre : List Frame) (fr : Frame) (post : List Frame) (hpc : Int),
      (∀ g ∈ pre, FindExceptionHandler g.codeAttr g.cp (g.pc - 1) cls = some (-1)) →
      FindExceptionHandler fr.codeAttr fr.cp (fr.pc - 1) cls = some hpc →
      0 ≤ hpc →
      0 < fr.stack.slots.length → 0 < fr.stack.refs.length →
      ∃ s2, (fr.stack.Clear).PushRef exRef = some s2 ∧ s2.size = 1 ∧
        s2.refs.getD 0 Ref.null = exRef ∧
        handleException (pre ++ fr :: post) exRef cls =
          some (Except.ok ({ fr with pc := hpc, stack := s2 } :: post))) := by
  constructor
  · exact handleException_nomatch exRef cls
  · intro pre fr post hpc hpre hfind hge hs hr
    obtain ⟨hpush, hsize, href⟩ := clear_pushRef fr.stack exRef hs hr
    exact ⟨_, hpush, hsize, href,
      handleException_match exRef cls pre fr post hpc _ hpre hfind hge hpush⟩

/-- Witness for `handleException_spec` at a one-frame stack with a catch-all
entry. -/
theorem handleException_spec_witness :
    ∃ s2, (catchAllDemoFrame.stack.Clear).PushRef (Ref.str "java/lang/RuntimeException")
        = some s2 ∧ s2.size = 1 ∧
      s2.refs.getD 0 Ref.null = Ref.str "java/lang/RuntimeException" ∧
      handleException ([] ++ catchAllDemoFrame :: []) (Ref.str "java/lang/RuntimeException")
          "java/lang/RuntimeException" =
        some (Except.ok ({ catchAllDemoFrame with pc := 7, stack := s2 } :: [])) :=
  (handleException_spec (Ref.str "java/lang/RuntimeException")
    "java/lang/RuntimeException").2 [] catchAllDemoFrame [] 7
    (by intro g hg; cases hg) (by decide) (by decide) (by decide) (by decide)

/-- If some entry of the table covers `pc` and matches the exception class
(and no entry's catch-type resolution panics), `FindExceptionHandlerAux`
returns a non-negative handler pc. -/
theorem findHandlerAux_matches (cp : ConstantPool) (pc : Int) (cls : String) :
    ∀ (entries : List ExceptionTableEntry),
      (∀ e ∈ entries, e.catchType = 0 ∨ ∃ c, cp.GetClassName e.catchType = some c) →
      (∃ e ∈ entries, (e.startPC : Int) ≤ pc ∧ pc < (e.endPC : Int) ∧
        (e.catchType = 0 ∨ ∃ c, cp.GetClassName e.catchType = some c ∧
          matchesException cls c = true)) →
      ∃ hpc : Int, FindExceptionHandlerAux cp pc cls entries = some hpc ∧ 0 ≤ hpc
  | [], _, hex => by
    simp at hex
  | e :: rest, hwf, hex => by
    rw [FindExceptionHandlerAux]
    by_cases hcov : (e.startPC : Int) ≤ pc ∧ pc < (e.endPC : Int)
    · rw [if_pos hcov]
      by_cases hct : e.catchType = 0
      · rw [if_pos hct]
        exact ⟨(e.handlerPC : Int), rfl, Int.natCast_nonneg _⟩
      · rw [if_neg hct]
        rcases hwf e (List.mem_cons_self e rest) with h0 | ⟨c, hc⟩
        · exact absurd h0 hct
        · rw [hc]
          dsimp only
          by_cases hm : matchesException cls c = true
          · rw [if_pos hm]
            exact ⟨(e.handlerPC : Int), rfl, Int.natCast_nonneg _⟩
          · rw [if_neg hm]
            refine findHandlerAux_matches cp pc cls rest
              (fun g hg => hwf g (List.mem_cons_of_mem e hg)) ?_
            rcases hex with ⟨e2, he2, hcovA, hcovB, hrest2⟩
            rcases List.mem_cons.mp he2 with rfl | he2r
            · rcases hrest2 with h0 | ⟨c2, hc2, hm2⟩
              · exact absurd h0 hct
              · rw [hc] at hc2
                obtain rfl := Option.some.inj hc2
                exact absurd hm2 hm
            · exact ⟨e2, he2r, hcovA, hcovB, hrest2⟩
    · rw [if_neg hcov]
      refine findHandlerAux_matches cp pc cls rest
        (fun g hg => hwf g (List.mem_cons_of_mem e hg)) ?_
      rcases hex with ⟨e2, he2, hcov2a, hcov2b, hrest2⟩
      rcases List.mem_cons.mp he2 with rfl | he2r
      · exact absurd ⟨hcov2a, hcov2b⟩ hcov
      · exact ⟨e2, he2r, hcov2a, hcov2b, hrest2⟩

/-- Claim C5: `idiv`, `irem`, `ldiv`, `lrem` with divisor 0 raise a runtime
`java/lang/ArithmeticException` that goes through exception propagation;
`matchesException` accepts it under a handler typed `ArithmeticException`,
`Throwable`, `Exception` or `RuntimeException` (and `catch_type = 0` is
catch-any), so when the enclosing method has such a handler covering the
instruction, execution continues at the handler instead of aborting. -/
theorem divByZero_caught :
    (matchesException "java/lang/ArithmeticException" "java/lang/ArithmeticException" = true ∧
     matchesException "java/lang/ArithmeticException" "java/lang/Throwable" = true ∧
     matchesException "java/lang/ArithmeticException" "java/lang/Exception" = true ∧
     matchesException "java/lang/ArithmeticException" "java/lang/RuntimeException" = true) ∧
    (∀ (op : Nat), op = IDIV ∨ op = IREM →
      ∀ (f : Frame) (rest : List Frame) (v2 v1 : Int) (s1 s2 : OperandStack),
      f.stack.PopInt = some (v2, s1) → v2 = 0 → s1.PopInt = some (v1, s2) →
      (∀ e ∈ f.codeAttr.exceptionTable, e.catchType = 0 ∨
        ∃ c, f.cp.GetClassName e.catchType = some c) →
      (∃ e ∈ f.codeAttr.exceptionTable, (e.startPC : Int) ≤ f.pc - 1 ∧
        f.pc - 1 < (e.endPC : Int) ∧ (e.catchType = 0 ∨
          ∃ c, f.cp.GetClassName e.catchType = some c ∧
            matchesException "java/lang/ArithmeticException" c = true)) →
      0 < f.stack.slots.length → 0 < f.stack.refs.length →
      ∃ hpc s3, 0 ≤ hpc ∧
        FindExceptionHandler f.codeAttr f.cp (f.pc - 1) "java/lang/ArithmeticException"
          = some hpc ∧
        (s2.Clear).PushRef (Ref.str "java/lang/ArithmeticException") = some s3 ∧
        executeMathInstruction (f :: rest) op =
          some (InstrOut.ok ({ f with pc := hpc, stack := s3 } :: rest) true)) ∧
    (∀ (op : Nat), op = LDIV ∨ op = LREM →
      ∀ (f : Frame) (rest : List Frame) (v2 v1 : Int) (s1 s2 : OperandStack),
      f.stack.PopLong = some (v2, s1) → v2 = 0 → s1.PopLong = some (v1, s2) →
      (∀ e ∈ f.codeAttr.exceptionTable, e.catchType = 0 ∨
        ∃ c, f.cp.GetClassName e.catchType = some c) →
      (∃ e ∈ f.codeAttr.exceptionTable, (e.startPC : Int) ≤ f.pc - 1 ∧
        f.pc - 1 < (e.endPC : Int) ∧ (e.catchType = 0 ∨
          ∃ c, f.cp.GetClassName e.catchType = some c ∧
            matchesException "java/lang/ArithmeticException" c = true)) →
      0 < f.stack.slots.length → 0 < f.stack.refs.length →
      ∃ hpc s3, 0 ≤ hpc ∧
        FindExceptionHandler f.codeAttr f.cp (f.pc - 1) "java/lang/ArithmeticException"
          = some hpc ∧
        (s2.Clear).PushRef (Ref.str "java/lang/ArithmeticException") = some s3 ∧
        executeMathInstruction (f :: rest) op =
          some (InstrOut.ok ({ f with pc := hpc, stack := s3 } :: rest) true)) := by
  refine ⟨⟨by decide, by decide, by decide, by decide⟩, ?_, ?_⟩
  · intro op hop f rest v2 v1 s1 s2 hpop1 hv2 hpop2 hwf hex hs hr
    obtain ⟨hpc, hfind, hge⟩ :=
      findHandlerAux_matches f.cp (f.pc - 1) "java/lang/ArithmeticException"
        f.codeAttr.exceptionTable hwf hex
    have hs2 : 0 < s2.slots.length := by
      have h1 := PopInt_lengths hpop1
      have h2 := PopInt_lengths hpop2
      omega
    have hr2 : 0 < s2.refs.length := by
      have h1 := PopInt_lengths hpop1
      have h2 := PopInt_lengths hpop2
      omega
    obtain ⟨hpush, -, -⟩ :=
      clear_pushRef s2 (Ref.str "java/lang/ArithmeticException") hs2 hr2
    refine ⟨hpc, _, hge, hfind, hpush, ?_⟩
    have hhe := handleException_match (Ref.str "java/lang/ArithmeticException")
      "java/lang/ArithmeticException" [] { f with stack := s2 } rest hpc _
      (fun g hg => absurd hg (List.not_mem_nil g)) hfind hge hpush
    rw [List.nil_append] at hhe
    rcases hop with rfl | rfl <;>
      simp [executeMathInstruction, hpop1, hpop2, hv2, hhe]
  · intro op hop f rest v2 v1 s1 s2 hpop1 hv2 hpop2 hwf hex hs hr
    obtain ⟨hpc, hfind, hge⟩ :=
      findHandlerAux_matches f.cp (f.pc - 1) "java/lang/ArithmeticException"
        f.codeAttr.exceptionTable hwf hex
    have hs2 : 0 < s2.slots.length := by
      have h1 := PopLong_lengths hpop1
      have h2 := PopLong_lengths hpop2
      omega
    have hr2 : 0 < s2.refs.length := by
      have h1 := PopLong_lengths hpop1
      have h2 := PopLong_lengths hpop2
      omega
    obtain ⟨hpush, -, -⟩ :=
      clear_pushRef s2 (Ref.str "java/lang/ArithmeticException") hs2 hr2
    refine ⟨hpc, _, hge, hfind, hpush, ?_⟩
    have hhe := handleException_match (Ref.str "java/lang/ArithmeticException")
      "java/lang/ArithmeticException" [] { f with stack := s2 } rest hpc _
      (fun g hg => absurd hg (List.not_mem_nil g)) hfind hge hpush
    rw [List.nil_append] at hhe
    rcases hop with rfl | rfl <;>
      simp [executeMathInstruction, hpop1, hpop2, hv2, hhe]

/-- Witness for `divByZero_caught`: `idiv` of 7 by 0 in a frame whose method
catches `ArithmeticException` continues at handler pc 9. -/
theorem divByZero_caught_witness :
    ∃ hpc s3, (0 : Int) ≤ hpc ∧
      FindExceptionHandler arithCatchDemoFrame.codeAttr arithCatchDemoFrame.cp
          (arithCatchDemoFrame.pc - 1) "java/lang/ArithmeticException" = some hpc ∧
      (({ size := 0, slots := [7, 0], refs := [Ref.null, Ref.null] }
          : OperandStack).Clear).PushRef
          (Ref.str "java/lang/ArithmeticException") = some s3 ∧
      executeMathInstruction [arithCatchDemoFrame] IDIV =
        some (InstrOut.ok ({ arithCatchDemoFrame with pc := hpc, stack := s3 } :: []) true) :=
  divByZero_caught.2.1 IDIV (Or.inl rfl) arithCatchDemoFrame [] 0 7
    { size := 1, slots := [7, 0], refs := [Ref.null, Ref.null] }
    { size := 0, slots := [7, 0], refs := [Ref.null, Ref.null] }
    (by decide) rfl (by decide)
    (by
      intro e he
      have he2 : e = { startPC := 0, endPC := 1, handlerPC := 9, catchType := 1 } := by
        simpa [arithCatchDemoFrame] using he
      subst he2
      exact Or.inr ⟨"java/lang/ArithmeticException", by decide⟩)
    ⟨{ startPC := 0, endPC := 1, handlerPC := 9, catchType := 1 },
      by decide, by decide, by decide,
      Or.inr ⟨"java/lang/ArithmeticException", by decide, by decide⟩⟩
    (by decide) (by decide)

/-- Claim C2 counterexample: `iaload` on a null array reference raises
`NullPointerException` as a Go error, and even though the frame's exception
table has a catch-any handler covering the instruction (first conjunct), the
run loop returns the error and ends the run — the error never enters
`handleException`, so no handler catches it. -/
theorem array_npe_bypasses_handler :
    FindExceptionHandler npeDemoFrame.codeAttr npeDemoFrame.cp (0 : Int)
        "java/lang/NullPointerException" = some 0 ∧
      runLoop 3 [] [npeDemoFrame] =
        some (Except.error "NullPointerException: array is null") := by
  exact ⟨rfl, rfl⟩

/-- Claim C2 (amended): every array load or store executed with a null array
reference raises `NullPointerException`, and with an index outside
`[0, length)` raises `ArrayIndexOutOfBoundsException`; but these are
returned from the instruction handler as interpreter errors which the run
loop returns immediately, ending the run without any handler search (unlike
division by zero and `athrow`, which go through propagation). -/
theorem array_errors_abort_run :
    (∀ op ∈ [IALOAD, LALOAD, AALOAD, BALOAD, CALOAD, SALOAD, FALOAD, DALOAD],
      ∀ (st : ArrStore) (f : Frame) (idx : Int) (s1 s2 : OperandStack),
      f.stack.PopInt = some (idx, s1) → s1.PopRef = some (Ref.null, s2) →
      executeArrayInstruction st f op =
        some (InstrOut.raise "NullPointerException: array is null")) ∧
    (∀ op ∈ [IALOAD, LALOAD, AALOAD, BALOAD, CALOAD, SALOAD, FALOAD, DALOAD],
      ∀ (st : ArrStore) (f : Frame) (idx : Int) (s1 s2 : OperandStack) (ai : Nat)
        (arr : ArrayObj),
      f.stack.PopInt = some (idx, s1) → s1.PopRef = some (Ref.arr ai, s2) →
      st[ai]? = some arr → idx < 0 ∨ idx ≥ arr.length →
      executeArrayInstruction st f op =
        some (InstrOut.raise ("ArrayIndexOutOfBoundsException: " ++ toString idx))) ∧
    (∀ op ∈ [IASTORE, LASTORE, AASTORE, BASTORE, CASTORE, SASTORE, FASTORE, DASTORE],
      ∀ (st : ArrStore) (f : Frame) (s1 : OperandStack) (idx : Int)
        (s2 s3 : OperandStack),
      popStoreValue op f.stack = some s1 → s1.PopInt = some (idx, s2) →
      s2.PopRef = some (Ref.null, s3) →
      executeArrayInstruction st f op =
        some (InstrOut.raise "NullPointerException: array is null")) ∧
    (∀ op ∈ [IASTORE, LASTORE, AASTORE, BASTORE, CASTORE, SASTORE, FASTORE, DASTORE],
      ∀ (st : ArrStore) (f : Frame) (s1 : OperandStack) (idx : Int)
        (s2 s3 : OperandStack) (ai : Nat) (arr : ArrayObj),
      popStoreValue op f.stack = some s1 → s1.PopInt = some (idx, s2) →
      s2.PopRef = some (Ref.arr ai, s3) → st[ai]? = some arr →
      idx < 0 ∨ idx ≥ arr.length →
      executeArrayInstruction st f op =
        some (InstrOut.raise ("ArrayIndexOutOfBoundsException: " ++ toString idx))) ∧
    (∀ (fuel : Nat) (st : ArrStore) (f f1 : Frame) (rest : List Frame) (opcode : Nat)
        (e : String),
      ¬ (f.codeAttr.code.length : Int) ≤ f.pc →
      f.ReadU1 = some (opcode, f1) →
      executeInstruction st (f1 :: rest) opcode = some (Except.error e) →
      runLoop (fuel + 1) st (f :: rest) = some (Except.error e)) := by
  refine ⟨?_, ?_, ?_, ?_, ?_⟩
  · intro op hop st f idx s1 s2 hpop href
    fin_cases hop <;> simp [executeArrayInstruction, hpop, href]
  · intro op hop st f idx s1 s2 ai arr hpop href hget hbound
    fin_cases hop <;>
      simp [executeArrayInstruction, hpop, href, Ref.asArray, hget, hbound]
  · intro op hop st f s1 idx s2 s3 hval hpop href
    fin_cases hop
    · simp only [popStoreValue, IASTORE, LASTORE, AASTORE, FASTORE, DASTORE,
        if_false, reduceIte] at hval
      rcases hp : f.stack.PopInt with _ | ⟨v, sv⟩ <;> rw [hp] at hval
      · simp at hval
      · have hs : sv = s1 := by simpa using hval
        subst hs
        simp [executeArrayInstruction, hp, hpop, href]
    · simp only [popStoreValue, LASTORE, reduceIte] at hval
      rcases hp : f.stack.PopLong with _ | ⟨v, sv⟩ <;> rw [hp] at hval
      · simp at hval
      · have hs : sv = s1 := by simpa using hval
        subst hs
        simp [executeArrayInstruction, hp, hpop, href]
    · simp only [popStoreValue, AASTORE, LASTORE, reduceIte] at hval
      rcases hp : f.stack.PopRef with _ | ⟨v, sv⟩ <;> rw [hp] at hval
      · simp at hval
      · have hs : sv = s1 := by simpa using hval
        subst hs
        simp [executeArrayInstruction, hp, hpop, href]
    · simp only [popStoreValue, BASTORE, LASTORE, AASTORE, FASTORE, DASTORE,
        reduceIte] at hval
      rcases hp : f.stack.PopInt with _ | ⟨v, sv⟩ <;> rw [hp] at hval
      · simp at hval
      · have hs : sv = s1 := by simpa using hval
        subst hs
        simp [executeArrayInstruction, hp, hpop, href]
    · simp only [popStoreValue, CASTORE, LASTORE, AASTORE, FASTORE, DASTORE,
        reduceIte] at hval
      rcases hp : f.stack.PopInt with _ | ⟨v, sv⟩ <;> rw [hp] at hval
      · simp at hval
      · have hs : sv = s1 := by simpa using hval
        subst hs
        simp [executeArrayInstruction, hp, hpop, href]
    · simp only [popStoreValue, SASTORE, LASTORE, AASTORE, FASTORE, DASTORE,
        reduceIte] at hval
      rcases hp : f.stack.PopInt with _ | ⟨v, sv⟩ <;> rw [hp] at hval
      · simp at hval
      · have hs : sv = s1 := by simpa using hval
        subst hs
        simp [executeArrayInstruction, hp, hpop, href]
    · simp only [popStoreValue, FASTORE, LASTORE, AASTORE, reduceIte] at hval
      rcases hp : f.stack.PopFloatBits with _ | ⟨v, sv⟩ <;> rw [hp] at hval
      · simp at hval
      · have hs : sv = s1 := by simpa using hval
        subst hs
        simp [executeArrayInstruction, hp, hpop, href]
    · simp only [popStoreValue, DASTORE, LASTORE, AASTORE, FASTORE, reduceIte] at hval
      rcases hp : f.stack.PopDoubleBits with _ | ⟨v, sv⟩ <;> rw [hp] at hval
      · simp at hval
      · have hs : sv = s1 := by simpa using hval
        subst hs
        simp [executeArrayInstruction, hp, hpop, href]
  · intro op hop st f s1 idx s2 s3 ai arr hval hpop href hget hbound
    fin_cases hop
    · simp only [popStoreValue, IASTORE, LASTORE, AASTORE, FASTORE, DASTORE,
        reduceIte] at hval
      rcases hp : f.stack.PopInt with _ | ⟨v, sv⟩ <;> rw [hp] at hval
      · simp at hval
      · have hs : sv = s1 := by simpa using hval
        subst hs
        simp [executeArrayInstruction, hp, hpop, href, Ref.asArray, hget, hbound]
    · simp only [popStoreValue, LASTORE, reduceIte] at hval
      rcases hp : f.stack.PopLong with _ | ⟨v, sv⟩ <;> rw [hp] at hval
      · simp at hval
      · have hs : sv = s1 := by simpa using hval
        subst hs
        simp [executeArrayInstruction, hp, hpop, href, Ref.asArray, hget, hbound]
    · simp only [popStoreValue, AASTORE, LASTORE, reduceIte] at hval
      rcases hp : f.stack.PopRef with _ | ⟨v, sv⟩ <;> rw [hp] at hval
      · simp at hval
      · have hs : sv = s1 := by simpa using hval
        subst hs
        simp [executeArrayInstruction, hp, hpop, href, Ref.asArray, hget, hbound]
    · simp only [popStoreValue, BASTORE, LASTORE, AASTORE, FASTORE, DASTORE,
        reduceIte] at hval
      rcases hp : f.stack.PopInt with _ | ⟨v, sv⟩ <;> rw [hp] at hval
      · simp at hval
      · have hs : sv = s1 := by simpa using hval
        subst hs
        simp [executeArrayInstruction, hp, hpop, href, Ref.asArray, hget, hbound]
    · simp only [popStoreValue, CASTORE, LASTORE, AASTORE, FASTORE, DASTORE,
        reduceIte] at hval
      rcases hp : f.stack.PopInt with _ | ⟨v, sv⟩ <;> rw [hp] at hval
      · simp at hval
      · have hs : sv = s1 := by simpa using hval
        subst hs
        simp [executeArrayInstruction, hp, hpop, href, Ref.asArray, hget, hbound]
    · simp only [popStoreValue, SASTORE, LASTORE, AASTORE, FASTORE, DASTORE,
        reduceIte] at hval
      rcases hp : f.stack.PopInt with _ | ⟨v, sv⟩ <;> rw [hp] at hval
      · simp at hval
      · have hs : sv = s1 := by simpa using hval
        subst hs
        simp [executeArrayInstruction, hp, hpop, href, Ref.asArray, hget, hbound]
    · simp only [popStoreValue, FASTORE, LASTORE, AASTORE, reduceIte] at hval
      rcases hp : f.stack.PopFloatBits with _ | ⟨v, sv⟩ <;> rw [hp] at hval
      · simp at hval
      · have hs : sv = s1 := by simpa using hval
        subst hs
        simp [executeArrayInstruction, hp, hpop, href, Ref.asArray, hget, hbound]
    · simp only [popStoreValue, DASTORE, LASTORE, AASTORE, FASTORE, reduceIte] at hval
      rcases hp : f.stack.PopDoubleBits with _ | ⟨v, sv⟩ <;> rw [hp] at hval
      · simp at hval
      · have hs : sv = s1 := by simpa using hval
        subst hs
        simp [executeArrayInstruction, hp, hpop, href, Ref.asArray, hget, hbound]
  · intro fuel st f f1 rest opcode e hlen hread hexec
    simp [runLoop, hlen, hread, hexec]

/-- Witness for `array_errors_abort_run` at the concrete `iaload`-on-null
state. -/
theorem array_errors_abort_run_witness :
    executeArrayInstruction [] npeDemoFrame IALOAD =
      some (InstrOut.raise "NullPointerException: array is null") :=
  array_errors_abort_run.1 IALOAD (by decide) [] npeDemoFrame 5
    { size := 1, slots := [0, 5], refs := [Ref.null, Ref.null] }
    { size := 0, slots := [0, 5], refs := [Ref.null, Ref.null] }
    (by decide) (by decide)

/-- `NewOperandStack` allocates backing arrays of length `max 1 maxStack`
(a requested capacity below 1 is clamped to 1). -/
theorem NewOperandStack_capacity (maxStack : Nat) :
    (NewOperandStack (maxStack : Int)).slots.length = max 1 maxStack ∧
    (NewOperandStack (maxStack : Int)).refs.length = max 1 maxStack ∧
    (NewOperandStack (maxStack : Int)).size = 0 := by
  rw [NewOperandStack]
  by_cases h : (maxStack : Int) < 1
  · have h0 : maxStack = 0 := by omega
    subst h0
    simp
  · have h1 : 1 ≤ maxStack := by omega
    rw [if_neg h]
    simp
    omega

/-- Every completed operand-stack operation preserves well-formedness: the
backing lengths stay `cap` and the depth stays in `[0, cap]`. -/
theorem applyStackOp_wf {s s2 : OperandStack} {cap : Nat} {op : StackOp}
    (hwf : StackWF s cap) (hstep : applyStackOp s op = some s2) : StackWF s2 cap := by
  obtain ⟨hsl, hrl, hsz⟩ := hwf
  cases op with
  | pushInt v =>
    rw [applyStackOp, OperandStack.PushInt] at hstep
    split at hstep
    · obtain rfl := Option.some.inj hstep
      refine ⟨by simp [hsl], by simp [hrl], by simp; omega⟩
    · cases hstep
  | popInt =>
    rw [applyStackOp, OperandStack.PopInt] at hstep
    split at hstep
    · simp only [Option.map_some'] at hstep
      obtain rfl := Option.some.inj hstep
      exact ⟨hsl, by simp [hrl], by simp; omega⟩
    · cases hstep
  | pushLong v =>
    rw [applyStackOp, OperandStack.PushLong] at hstep
    split at hstep
    · obtain rfl := Option.some.inj hstep
      refine ⟨by simp [hsl], by simp [hrl], by simp; omega⟩
    · cases hstep
  | popLong =>
    rw [applyStackOp, OperandStack.PopLong] at hstep
    split at hstep
    · simp only [Option.map_some'] at hstep
      obtain rfl := Option.some.inj hstep
      exact ⟨hsl, by simp [hrl], by simp; omega⟩
    · cases hstep
  | pushRef r =>
    rw [applyStackOp, OperandStack.PushRef] at hstep
    split at hstep
    · obtain rfl := Option.some.inj hstep
      refine ⟨by simp [hsl], by simp [hrl], by simp; omega⟩
    · cases hstep
  | popRef =>
    rw [applyStackOp, OperandStack.PopRef] at hstep
    split at hstep
    · simp only [Option.map_some'] at hstep
      obtain rfl := Option.some.inj hstep
      exact ⟨by simp [hsl], by simp [hrl], by simp; omega⟩
    · cases hstep
  | pushSlot v =>
    rw [applyStackOp, OperandStack.PushSlot] at hstep
    split at hstep
    · obtain rfl := Option.some.inj hstep
      refine ⟨by simp [hsl], by simp [hrl], by simp; omega⟩
    · cases hstep
  | popSlot =>
    rw [applyStackOp, OperandStack.PopSlot] at hstep
    split at hstep
    · simp only [Option.map_some'] at hstep
      obtain rfl := Option.some.inj hstep
      exact ⟨hsl, by simp [hrl], by simp; omega⟩
    · cases hstep
  | pushFloatBits v =>
    rw [applyStackOp, OperandStack.PushFloatBits] at hstep
    split at hstep
    · obtain rfl := Option.some.inj hstep
      refine ⟨by simp [hsl], by simp [hrl], by simp; omega⟩
    · cases hstep
  | popFloatBits =>
    rw [applyStackOp, OperandStack.PopFloatBits] at hstep
    split at hstep
    · simp only [Option.map_some'] at hstep
      obtain rfl := Option.some.inj hstep
      exact ⟨hsl, hrl, by simp; omega⟩
    · cases hstep
  | pushDoubleBits v =>
    rw [applyStackOp, OperandStack.PushDoubleBits] at hstep
    split at hstep
    · obtain rfl := Option.some.inj hstep
      refine ⟨by simp [hsl], by simp [hrl], by simp; omega⟩
    · cases hstep
  | popDoubleBits =>
    rw [applyStackOp, OperandStack.PopDoubleBits] at hstep
    split at hstep
    · simp only [Option.map_some'] at hstep
      obtain rfl := Option.some.inj hstep
      exact ⟨hsl, hrl, by simp; omega⟩
    · cases hstep
  | popDiscard =>
    rw [applyStackOp, OperandStack.PopDiscard] at hstep
    split at hstep
    · obtain rfl := Option.some.inj hstep
      exact ⟨hsl, by simp [hrl], by simp; omega⟩
    · cases hstep
  | dup =>
    rw [applyStackOp, OperandStack.Dup] at hstep
    split at hstep
    · obtain rfl := Option.some.inj hstep
      refine ⟨by simp [hsl], by simp [hrl], by simp; omega⟩
    · cases hstep
  | swap =>
    rw [applyStackOp, OperandStack.Swap] at hstep
    split at hstep
    · obtain rfl := Option.some.inj hstep
      refine ⟨by simp [hsl], by simp [hrl], by simp; omega⟩
    · cases hstep

/-- Well-formedness is preserved along any completed operation sequence. -/
theorem applyStackOps_wf : ∀ (ops : List StackOp) (s s2 : OperandStack) (cap : Nat),
    StackWF s cap → applyStackOps s ops = some s2 → StackWF s2 cap
  | [], s, s2, cap, hwf, hrun => by
    obtain rfl := Option.some.inj hrun
    exact hwf
  | op :: ops, s, s2, cap, hwf, hrun => by
    rw [applyStackOps] at hrun
    rcases hstep : applyStackOp s op with _ | s1
    · rw [hstep] at hrun
      cases hrun
    · rw [hstep] at hrun
      exact applyStackOps_wf ops s1 s2 cap (applyStackOp_wf hwf hstep) hrun

/-- Claim C7 counterexample: a method with declared `max_stack = 0` gets an
operand stack with backing capacity 1 (the `NewOperandStack` clamp), so
executing `iconst_0` succeeds and leaves the stack at depth 1, which exceeds
the declared `max_stack`. -/
theorem stack_depth_exceeds_declared_max :
    zeroStackDemoFrame.codeAttr.maxStack = 0 ∧
      executeConstInstruction zeroStackDemoFrame ICONST_0 =
        some ({ zeroStackDemoFrame with
          stack := { size := 1, slots := [0], refs := [Ref.null] } }, true) ∧
      (1 : Nat) > zeroStackDemoFrame.codeAttr.maxStack := by
  exact ⟨rfl, rfl, by decide⟩

/-- Claim C7 (amended): the operand stack's backing capacity is
`max 1 max_stack` (a declared `max_stack` of 0 is clamped to 1, so the depth
can legitimately reach 1 there); every operation sequence the Go code
completes without an index-out-of-range panic keeps the depth within
`[0, max 1 max_stack]` — in particular within `[0, max_stack]` whenever
`max_stack ≥ 1` — and a depth below 0 is unreachable (underflowing pops
panic); every local-variable access that completes uses an index strictly
below `max_locals`, and accesses at larger indices panic. -/
theorem operand_stack_depth_bounds :
    (∀ maxStack : Nat,
      (NewOperandStack (maxStack : Int)).slots.length = max 1 maxStack ∧
      (NewOperandStack (maxStack : Int)).refs.length = max 1 maxStack) ∧
    (∀ (maxStack : Nat) (ops : List StackOp) (s2 : OperandStack),
      applyStackOps (NewOperandStack (maxStack : Int)) ops = some s2 →
      s2.size ≤ max 1 maxStack) ∧
    (∀ (l : LocalVars) (ml i : Nat) (v : Int) (r : Ref),
      l.slots.length = ml → l.refs.length = ml →
      (((l.SetInt i v).isSome ↔ i < ml) ∧ ((l.GetInt i).isSome ↔ i < ml) ∧
       ((l.SetRef i r).isSome ↔ i < ml) ∧ ((l.GetRef i).isSome ↔ i < ml))) := by
  refine ⟨?_, ?_, ?_⟩
  · intro maxStack
    obtain ⟨h1, h2, -⟩ := NewOperandStack_capacity maxStack
    exact ⟨h1, h2⟩
  · intro maxStack ops s2 hrun
    obtain ⟨h1, h2, h3⟩ := NewOperandStack_capacity maxStack
    have hwf := applyStackOps_wf ops _ s2 (max 1 maxStack) ⟨h1, h2, by omega⟩ hrun
    exact hwf.2.2
  · intro l ml i v r hsl hrl
    refine ⟨?_, ?_, ?_, ?_⟩
    · rw [LocalVars.SetInt]
      by_cases hc : i < ml
      · rw [if_pos ⟨by omega, by omega⟩]
        simp [hc]
      · rw [if_neg (by omega)]
        simp [hc]
    · rw [LocalVars.GetInt]
      by_cases hc : i < ml
      · rw [if_pos (by omega)]
        simp [hc]
      · rw [if_neg (by omega)]
        simp [hc]
    · rw [LocalVars.SetRef]
      by_cases hc : i < ml
      · rw [if_pos ⟨by omega, by omega⟩]
        simp [hc]
      · rw [if_neg (by omega)]
        simp [hc]
    · rw [LocalVars.GetRef]
      by_cases hc : i < ml
      · rw [if_pos (by omega)]
        simp [hc]
      · rw [if_neg (by omega)]
        simp [hc]

/-- Witness for `operand_stack_depth_bounds`: pushing twice and popping once
on a stack declared with `max_stack = 2` ends at depth 1 ≤ 2. -/
theorem operand_stack_depth_bounds_witness :
    ({ size := 1, slots := [4, 9], refs := [Ref.null, Ref.null] } : OperandStack).size
        ≤ max 1 2 :=
  operand_stack_depth_bounds.2.1 2
    [StackOp.pushInt 4, StackOp.pushInt 9, StackOp.popInt]
    { size := 1, slots := [4, 9], refs := [Ref.null, Ref.null] } (by decide)

/-- Claim C10: an in-bounds `bastore` on a non-null int-backed array stores
`int32(int8(v))` (the popped value truncated to its signed low 8 bits),
`castore` stores `int32(uint16(v))` (unsigned low 16 bits) and `sastore`
stores `int32(int16(v))` (signed low 16 bits); a subsequent `baload`,
`caload` or `saload` at the same index pushes exactly the value the array
holds — hence the truncated value, not the original operand. -/
theorem bastore_castore_sastore_truncate
    (st : ArrStore) (f f2 : Frame) (val index : Int) (ai : Nat) (arr : ArrayObj)
    (l : List Int) (s1 s2 s3 t1 t2 : OperandStack)
    (hpop1 : f.stack.PopInt = some (val, s1))
    (hpop2 : s1.PopInt = some (index, s2))
    (hpop3 : s2.PopRef = some (Ref.arr ai, s3))
    (hget : st[ai]? = some arr)
    (hints : arr.ints = some l)
    (hlen : (l.length : Int) = arr.length)
    (hi0 : 0 ≤ index) (hiL : index < arr.length)
    (hpop4 : f2.stack.PopInt = some (index, t1))
    (hpop5 : t1.PopRef = some (Ref.arr ai, t2)) :
    (executeArrayInstruction st f BASTORE =
        some (InstrOut.ok
          (st.set ai { arr with ints := some (l.set index.toNat (toInt8 val)) },
           { f with stack := s3 }) true)) ∧
    (executeArrayInstruction st f CASTORE =
        some (InstrOut.ok
          (st.set ai { arr with ints := some (l.set index.toNat (toUint16 val)) },
           { f with stack := s3 }) true)) ∧
    (executeArrayInstruction st f SASTORE =
        some (InstrOut.ok
          (st.set ai { arr with ints := some (l.set index.toNat (toInt16 val)) },
           { f with stack := s3 }) true)) ∧
    (∀ op ∈ [BALOAD, CALOAD, SALOAD], ∀ (w : Int) (t3 : OperandStack),
      t2.PushInt w = some t3 →
      executeArrayInstruction (st.set ai { arr with ints := some (l.set index.toNat w) })
          f2 op =
        some (InstrOut.ok
          (st.set ai { arr with ints := some (l.set index.toNat w) },
           { f2 with stack := t3 }) true)) := by
  have hnb : ¬ (index < 0 ∨ index ≥ arr.length) := by omega
  have hiN : index.toNat < l.length := by omega
  have hcond : 0 ≤ index ∧ index < (l.length : Int) := ⟨hi0, by rw [hlen]; exact hiL⟩
  have hsetB : arr.SetInt index (toInt8 val) =
      some { arr with ints := some (l.set index.toNat (toInt8 val)) } := by
    rw [ArrayObj.SetInt, hints]
    dsimp only
    rw [if_pos hcond]
  have hsetC : arr.SetInt index (toUint16 val) =
      some { arr with ints := some (l.set index.toNat (toUint16 val)) } := by
    rw [ArrayObj.SetInt, hints]
    dsimp only
    rw [if_pos hcond]
  have hsetS : arr.SetInt index (toInt16 val) =
      some { arr with ints := some (l.set index.toNat (toInt16 val)) } := by
    rw [ArrayObj.SetInt, hints]
    dsimp only
    rw [if_pos hcond]
  have hai : ai < st.length := by
    rcases List.getElem?_eq_some_iff.mp hget with ⟨h, -⟩
    exact h
  refine ⟨?_, ?_, ?_, ?_⟩
  · simp [executeArrayInstruction, hpop1, hpop2, hpop3, Ref.asArray, hget, hnb, hsetB]
  · simp [executeArrayInstruction, hpop1, hpop2, hpop3, Ref.asArray, hget, hnb, hsetC]
  · simp [executeArrayInstruction, hpop1, hpop2, hpop3, Ref.asArray, hget, hnb, hsetS]
  · intro op hop w t3 hpush
    have hget2 : (st.set ai { arr with ints := some (l.set index.toNat w) })[ai]? =
        some { arr with ints := some (l.set index.toNat w) } := by
      exact List.getElem?_set_eq_of_lt _ hai
    have hgi : ({ arr with ints := some (l.set index.toNat w) } : ArrayObj).GetInt index
        = some w := by
      rw [ArrayObj.GetInt]
      dsimp only
      rw [if_pos (by rw [List.length_set]; exact hcond)]
      rw [List.getD_eq_getElem?_getD, List.getElem?_set_eq_of_lt _ hiN]
      rfl
    fin_cases hop <;>
      simp [executeArrayInstruction, hpop4, hpop5, Ref.asArray, hget2, hgi, hnb, hpush]

/-- Witness for `bastore_castore_sastore_truncate`: storing 200 into a byte
array writes `toInt8 200 = -56`, not 200. -/
theorem bastore_truncates_witness :
    executeArrayInstruction [byteDemoArr] byteStoreDemoFrame BASTORE =
      some (InstrOut.ok
        ([byteDemoArr].set 0
          { byteDemoArr with ints := some (List.set ([0] : List Int) (0 : Int).toNat (toInt8 200)) },
         { byteStoreDemoFrame with stack :=
            { size := 0, slots := [0, 0, 200], refs := [Ref.null, Ref.null, Ref.null] } }) true) ∧
    toInt8 200 = -56 :=
  ⟨(bastore_castore_sastore_truncate [byteDemoArr] byteStoreDemoFrame byteLoadDemoFrame
      200 0 0 byteDemoArr [0]
      { size := 2, slots := [0, 0, 200], refs := [Ref.arr 0, Ref.null, Ref.null] }
      { size := 1, slots := [0, 0, 200], refs := [Ref.arr 0, Ref.null, Ref.null] }
      { size := 0, slots := [0, 0, 200], refs := [Ref.null, Ref.null, Ref.null] }
      { size := 1, slots := [0, 0], refs := [Ref.arr 0, Ref.null] }
      { size := 0, slots := [0, 0], refs := [Ref.null, Ref.null] }
      (by decide) (by decide) (by decide) rfl rfl rfl (by decide) (by decide)
      (by decide) (by decide)).1,
    by decide⟩

end SimpleJVM
